import Mathlib

/-!
Verification of the core text-processing pipeline of the
real-time-linguistic-bridge repository (src/frontend/script.js) against its
natural-language specification.

JavaScript strings are modelled as lists of characters (`Str`), JavaScript
numbers as rationals (`ℚ`) with `Math.round` as `jsRound`, and JavaScript
`null`/`undefined` as `Option`. Each class of the source becomes a namespace;
the hard-coded tables of the source are embedded as Lean data. The one
source of nondeterminism, `Math.random()` inside
`PriceDiscoveryEngine.applyMarketVariations`, is modelled as an explicit
parameter `r` (the value the call to `Math.random()` returned).
-/

/-- JavaScript strings, modelled as lists of characters. -/
abbrev Str := List Char

/-- Conversion from a Lean string literal to the model. -/
def jstr (s : String) : Str := s.data

/-- The characters JavaScript's regex class matches as whitespace
(ASCII part; the source data only ever holds ASCII whitespace). -/
def isWsJS (c : Char) : Bool :=
  c == ' ' || c == '\t' || c == '\n' || c == '\r' || c == '\x0b' || c == '\x0c'

/-- JavaScript's word characters, the regex class of letters, digits and the
underscore. -/
def isWordJS (c : Char) : Bool :=
  (c ≥ 'a' && c ≤ 'z') || (c ≥ 'A' && c ≤ 'Z') || (c ≥ '0' && c ≤ '9') || c == '_'

/-- JavaScript's `hay.includes(sub)`: substring containment. -/
def jsIncludes (hay sub : Str) : Bool :=
  hay.tails.any (fun t => sub.isPrefixOf t)

/-- JavaScript's `Math.round`: round half toward positive infinity. -/
def jsRound (q : ℚ) : ℤ := ⌊q + 1 / 2⌋

/-- JavaScript's `String.prototype.trim`: strip whitespace from both ends. -/
def jsTrim (s : Str) : Str :=
  ((s.dropWhile isWsJS).reverse.dropWhile isWsJS).reverse

/-- JavaScript's `replace(/\s+/g, ' ')`: collapse every whitespace run to a
single space. `inRun` records whether the scan stands inside a whitespace
run whose first character was already emitted. -/
def collapseWsAux (inRun : Bool) : Str → Str
  | [] => []
  | c :: rest =>
    if isWsJS c then
      if inRun then collapseWsAux true rest
      else ' ' :: collapseWsAux true rest
    else c :: collapseWsAux false rest

/-- JavaScript's `replace(/\s+/g, ' ')`. -/
def collapseWs (s : Str) : Str := collapseWsAux false s

/-- JavaScript's global string replacement `s.replace(pat, rep)` with a
literal pattern: scan left to right, replace each non-overlapping occurrence
and continue after it. `skip` counts the characters of the current match
still to be consumed. -/
def jsReplaceAllAux (pat rep : Str) : Nat → Str → Str
  | _, [] => []
  | n + 1, _ :: rest => jsReplaceAllAux pat rep n rest
  | 0, c :: rest =>
    if pat ≠ [] ∧ pat.isPrefixOf (c :: rest) then
      rep ++ jsReplaceAllAux pat rep (pat.length - 1) rest
    else c :: jsReplaceAllAux pat rep 0 rest

/-- JavaScript's `s.replace(pat, rep)` with the `g` flag and a literal
pattern. -/
def jsReplaceAll (pat rep : Str) (s : Str) : Str := jsReplaceAllAux pat rep 0 s

/-- JavaScript's `replace(/\x7b[^\x7d]+\x7d/g, '')`: scan left to right and
delete every maximal placeholder token (an opening brace, a nonempty run of
non-closing-brace characters, a closing brace). `skip` counts the characters
of the current token still to be consumed. -/
def stripPhAux : Nat → Str → Str
  | _, [] => []
  | n + 1, _ :: rest => stripPhAux n rest
  | 0, c :: rest =>
    if c = '{' ∧ (rest.takeWhile (fun x => x ≠ '}')) ≠ [] ∧
        rest.drop (rest.takeWhile (fun x => x ≠ '}')).length ≠ [] then
      stripPhAux ((rest.takeWhile (fun x => x ≠ '}')).length + 1) rest
    else c :: stripPhAux 0 rest

/-- JavaScript's `replace(/\x7b[^\x7d]+\x7d/g, '')`. -/
def stripPh (s : Str) : Str := stripPhAux 0 s

/-- JavaScript's `s.split(sep)` with a nonempty literal separator:
accumulator-based scan (the accumulator is kept reversed); `skip` counts the
characters of the current separator occurrence still to be consumed. -/
def splitSepAux (sep : Str) : Nat → Str → Str → List Str
  | _, acc, [] => [acc.reverse]
  | n + 1, acc, _ :: rest => splitSepAux sep n acc rest
  | 0, acc, c :: rest =>
    if sep ≠ [] ∧ sep.isPrefixOf (c :: rest) then
      acc.reverse :: splitSepAux sep (sep.length - 1) [] rest
    else splitSepAux sep 0 (c :: acc) rest

/-- JavaScript's `s.split(sep)`. -/
def splitSep (sep s : Str) : List Str := splitSepAux sep 0 [] s

/-- Joining a list of strings with a separator (used to relate `splitSep`
back to the original string). -/
def joinSep (sep : Str) : List Str → Str
  | [] => []
  | [x] => x
  | x :: y :: rest => x ++ sep ++ joinSep sep (y :: rest)

/-- A string contains an unfilled template placeholder token: somewhere an
opening brace is followed by at least one non-closing-brace character and then
a closing brace (the token shape the source's cleanup regex removes). -/
def hasTok : Str → Bool
  | [] => false
  | c :: rest =>
    (c == '{' && rest.contains '}' && !(rest.headD ' ' == '}')) || hasTok rest

namespace ResponseGenerator

/-- Maximum characters for mobile display (source line 4057). -/
def maxDisplayLen : Nat := 300

/-- The record `formatForDisplay` returns. -/
structure DisplayResult where
  text : Str
  originalLength : Nat
  truncated : Bool
deriving Repr, DecidableEq

/-- The sentence-accumulation loop of `formatForDisplay` (source lines
4063-4072): keep appending sentences (with the separator re-added) while the
result stays within the display cap; stop at the first sentence that does not
fit. -/
def accumSentences : List Str → Str → Str
  | [], acc => acc
  | s :: rest, acc =>
    if (acc ++ s ++ jstr ". ").length ≤ maxDisplayLen then
      accumSentences rest (acc ++ s ++ jstr ". ")
    else acc

/-- `ResponseGenerator.formatForDisplay` (source lines 4055-4082): if the text
exceeds the display cap, truncate at a sentence boundary when possible,
otherwise hard-truncate to 297 characters and append an ellipsis. -/
def formatForDisplay (text : Str) : DisplayResult :=
  let displayText :=
    if text.length > maxDisplayLen then
      let sentences := splitSep (jstr ". ") text
      let truncated := accumSentences sentences []
      if jsTrim truncated ≠ [] then jsTrim truncated
      else text.take (maxDisplayLen - 3) ++ jstr "..."
    else text
  { text := displayText
    originalLength := text.length
    truncated := decide (displayText.length < text.length) }

/-- `ResponseGenerator.fillTemplate` (source lines 4084-4099): substitute each
variable for its placeholder, delete any remaining placeholder token, collapse
whitespace and trim. -/
def fillTemplate (template : Str) (vars : List (Str × Str)) : Str :=
  let filled := vars.foldl
    (fun f kv => jsReplaceAll ('{' :: kv.1 ++ ['}']) kv.2 f) template
  jsTrim (collapseWs (stripPh filled))

end ResponseGenerator

/-- JavaScript's `v || d` for an optional number: `undefined`, `null` and `0`
are falsy. -/
def orQ (v : Option ℚ) (d : ℚ) : ℚ :=
  match v with
  | none => d
  | some x => if x = 0 then d else x

/-- JavaScript's `v || d` for an optional string: `undefined`, `null` and the
empty string are falsy. -/
def orStr (v : Option Str) (d : Str) : Str :=
  match v with
  | none => d
  | some s => if s = [] then d else s

namespace PriceDiscoveryEngine

/-- One product entry of the static price dataset (the flat table the engine's
`loadPriceData` stores; the dataset file itself, `mock_data/prices.json`, is
not part of the repository). -/
structure ProductData where
  marketPrice : ℚ
  minPrice : ℚ
  maxPrice : ℚ
  unit : Option Str
  bulkThreshold : Option ℚ
  bulkDiscount : Option ℚ
  category : Option Str
  confidence : Option ℚ
  source : Option Str
deriving Repr, DecidableEq

/-- One category entry of the static dataset. -/
structure CategoryData where
  averagePrice : Option ℚ
  defaultMargin : Option ℚ
  seasonalVariation : Option ℚ
  keywords : Option (List Str)
deriving Repr, DecidableEq

/-- The engine's negotiation rules (only `maxDiscount` is read). -/
structure NegotiationRules where
  maxDiscount : Option ℚ
deriving Repr, DecidableEq

/-- The engine's state after `loadPriceData`: the three read-only tables.
The constructor initialises all of them empty. -/
structure PriceEngine where
  priceData : List (Str × ProductData)
  categories : List (Str × CategoryData)
  negotiationRules : NegotiationRules
deriving Repr, DecidableEq

/-- The engine as the constructor leaves it when no dataset was loaded
(source lines 2587-2592: empty tables). -/
def emptyEngine : PriceEngine :=
  { priceData := [], categories := [], negotiationRules := { maxDiscount := none } }

/-- The record `calculateNegotiationRange` returns (source lines 2658-2691). -/
structure NegotiationRange where
  absoluteMinimum : ℤ
  safeMinimum : ℤ
  marketPrice : ℤ
  premiumPrice : ℤ
  recommendedStart : ℤ
  acceptableRange : ℤ × ℤ
  maxDiscount : ℚ
deriving Repr, DecidableEq

/-- The record `getMarketPrice` returns on success (source lines 2637-2650;
the wall-clock `lastUpdated` timestamp is outside the model). The source can
place `null` in the `product` field, hence the `Option`. -/
structure PriceQuote where
  product : Option Str
  category : Str
  marketPrice : ℤ
  minPrice : ℤ
  maxPrice : ℤ
  unit : Str
  bulkThreshold : ℚ
  bulkDiscount : ℚ
  negotiationRange : NegotiationRange
  confidence : ℚ
  source : Str
deriving Repr, DecidableEq

/-- `normalizeProductName` (source lines 2758-2767): `null` for a missing or
unknown product, otherwise lowercase, drop one trailing `s`, keep only
lowercase letters. -/
def normalizeProductName (product : Option Str) : Option Str :=
  match product with
  | none => none
  | some s =>
    if s = [] ∨ s = jstr "unknown" then none
    else
      let lowered := s.map Char.toLower
      let deplural := if lowered.getLast? = some 's' then lowered.dropLast else lowered
      some (jsTrim (deplural.filter (fun c => 'a' ≤ c ∧ c ≤ 'z')))

/-- `findProductByFuzzyMatch` (source lines 2769-2797): exact key, then
substring containment either way over the keys in table order, then a
category-keyword match. -/
def findProductByFuzzyMatch (eng : PriceEngine) (searchProduct : Option Str) :
    Option ProductData :=
  match searchProduct with
  | none => none
  | some s =>
    match eng.priceData.lookup s with
    | some d => some d
    | none =>
      match eng.priceData.find? (fun kv => jsIncludes kv.1 s || jsIncludes s kv.1) with
      | some kv => some kv.2
      | none =>
        (eng.priceData.find? (fun kv =>
          match kv.2.category with
          | some cat =>
            !cat.isEmpty &&
              match eng.categories.lookup cat with
              | some cd => (cd.keywords.getD []).contains s
              | none => false
          | none => false)).map (fun kv => kv.2)

/-- `getCategoryDefaults` (source lines 2799-2818): default pricing generated
from the category's average price and margin. -/
def getCategoryDefaults (eng : PriceEngine) (category : Str) : Option ProductData :=
  match eng.categories.lookup category with
  | none => none
  | some cd =>
    let basePrice := orQ cd.averagePrice 50
    let margin := orQ cd.defaultMargin (15 / 100)
    some { marketPrice := basePrice
           minPrice := (jsRound (basePrice * (1 - margin)) : ℚ)
           maxPrice := (jsRound (basePrice * (1 + margin)) : ℚ)
           unit := some (jstr "kg")
           bulkThreshold := some 5
           bulkDiscount := some (5 / 100)
           category := some category
           confidence := some (1 / 2)
           source := some (jstr "category_default") }

/-- `applyMarketVariations` (source lines 2820-2842): scale all three prices
by `1 + (r - 0.5) * seasonalVariation`, where `r` is the value
`Math.random()` returned for this call. -/
def applyMarketVariations (eng : PriceEngine) (pd : ProductData)
    (category : Option Str) (r : ℚ) : ℤ × ℤ × ℤ :=
  let catInfo := category.bind (fun c => eng.categories.lookup c)
  let seasonalVariation := orQ (catInfo.bind (fun cd => cd.seasonalVariation)) (1 / 10)
  let variation := (r - 1 / 2) * seasonalVariation
  (jsRound (pd.marketPrice * (1 + variation)),
   jsRound (pd.minPrice * (1 + variation)),
   jsRound (pd.maxPrice * (1 + variation)))

/-- `calculateNegotiationRange` (source lines 2658-2691). -/
def calculateNegotiationRange (eng : PriceEngine) (basePrice : ℚ) :
    NegotiationRange :=
  let maxDiscount := orQ eng.negotiationRules.maxDiscount (15 / 100)
  let minMargin : ℚ := 5 / 100
  let absoluteMin := jsRound (basePrice * (1 - maxDiscount))
  let safeMin := jsRound (basePrice * (1 - maxDiscount + minMargin))
  let market := jsRound basePrice
  let premium := jsRound (basePrice * (11 / 10))
  { absoluteMinimum := absoluteMin
    safeMinimum := safeMin
    marketPrice := market
    premiumPrice := premium
    recommendedStart := premium
    acceptableRange := (safeMin, premium)
    maxDiscount := maxDiscount }

/-- `getMarketPrice` (source lines 2608-2656): direct lookup, fuzzy match,
then category defaults when the category is known and not `general`;
otherwise `null`. On success the prices carry the random market variation. -/
def getMarketPrice (eng : PriceEngine) (product category : Option Str)
    (r : ℚ) : Option PriceQuote :=
  let normalizedProduct := normalizeProductName product
  let direct := normalizedProduct.bind (fun s => eng.priceData.lookup s)
  let fuzzy :=
    match direct with
    | some d => some d
    | none => findProductByFuzzyMatch eng normalizedProduct
  let productData :=
    match fuzzy with
    | some d => some d
    | none =>
      match category with
      | some c =>
        if c ≠ [] ∧ c ≠ jstr "general" then getCategoryDefaults eng c else none
      | none => none
  match productData with
  | none => none
  | some pd =>
    let range := calculateNegotiationRange eng pd.marketPrice
    let adjusted := applyMarketVariations eng pd category r
    some { product := normalizedProduct
           category := orStr category (orStr pd.category (jstr "general"))
           marketPrice := adjusted.1
           minPrice := adjusted.2.1
           maxPrice := adjusted.2.2
           unit := orStr pd.unit (jstr "kg")
           bulkThreshold := orQ pd.bulkThreshold 5
           bulkDiscount := orQ pd.bulkDiscount (5 / 100)
           negotiationRange := range
           confidence := orQ pd.confidence (8 / 10)
           source := orStr pd.source (jstr "static_data") }

/-- Modelled from the spec: the static product-price dataset
(`mock_data/prices.json`) is fetched at startup and is not among the
repository's files. Section 6 of the spec gives its shape
(`product -> {marketPrice, minPrice, maxPrice, unit, bulkThreshold,
bulkDiscount, category}`), and the repository's browser test
(src/unnamed/part_005) exercises tomatoes at market price 50 with range 40
to 60; that entry is reproduced here. -/
def demoTomato : ProductData :=
  { marketPrice := 50
    minPrice := 40
    maxPrice := 60
    unit := none
    bulkThreshold := none
    bulkDiscount := none
    category := some (jstr "vegetables")
    confidence := none
    source := none }

/-- Modelled from the spec: the category-default table entry for vegetables
(all optional fields absent, so the source's documented defaults apply). -/
def demoVegetables : CategoryData :=
  { averagePrice := none
    defaultMargin := none
    seasonalVariation := none
    keywords := none }

/-- The modelled engine state after loading the dataset above. -/
def demoEngine : PriceEngine :=
  { priceData := [(jstr "tomato", demoTomato)]
    categories := [(jstr "vegetables", demoVegetables)]
    negotiationRules := { maxDiscount := none } }

/-- The own property names of `Object.prototype`. A JavaScript bracket read
on a plain object (such as the JSON-derived price table) resolves through the
prototype chain when no own entry exists, and every one of these inherited
values (a built-in function, or for `__proto__` the prototype object itself)
is truthy. -/
def protoKeys : List Str :=
  [jstr "constructor", jstr "hasOwnProperty", jstr "isPrototypeOf",
   jstr "propertyIsEnumerable", jstr "toLocaleString", jstr "toString",
   jstr "valueOf", jstr "__defineGetter__", jstr "__defineSetter__",
   jstr "__lookupGetter__", jstr "__lookupSetter__", jstr "__proto__"]

/-- The field view of a product-table value under full JavaScript property
semantics: a field is `none` when reading it yields `undefined` (and any
arithmetic on it yields `NaN`, which the numeric model also keeps as
`none`). -/
structure ProductFields where
  marketPrice : Option ℚ
  minPrice : Option ℚ
  maxPrice : Option ℚ
  unit : Option Str
  bulkThreshold : Option ℚ
  bulkDiscount : Option ℚ
  category : Option Str
  confidence : Option ℚ
  source : Option Str
deriving Repr, DecidableEq

/-- The field view of an own entry of the loaded price table. -/
def fieldsOfProduct (d : ProductData) : ProductFields :=
  { marketPrice := some d.marketPrice
    minPrice := some d.minPrice
    maxPrice := some d.maxPrice
    unit := d.unit
    bulkThreshold := d.bulkThreshold
    bulkDiscount := d.bulkDiscount
    category := d.category
    confidence := d.confidence
    source := d.source }

/-- The field view of a truthy value inherited from `Object.prototype`:
every data field reads `undefined`. -/
def inheritedFields : ProductFields :=
  { marketPrice := none
    minPrice := none
    maxPrice := none
    unit := none
    bulkThreshold := none
    bulkDiscount := none
    category := none
    confidence := none
    source := none }

/-- `this.priceData[key]` with full JavaScript property semantics (the read
on source line 2614 has no own-property guard): an own entry of the loaded
table when one exists, otherwise the truthy value inherited from
`Object.prototype` when `key` is one of its property names, otherwise
`undefined`. -/
def objectGet (table : List (Str × ProductData)) (key : Str) :
    Option ProductFields :=
  match table.lookup key with
  | some d => some (fieldsOfProduct d)
  | none => if protoKeys.contains key then some inheritedFields else none

/-- `Math.round(x * f)` when `x` may be `undefined` or `NaN` (both `none`):
the result is `NaN` (`none`) exactly when `x` is. -/
def jsRoundScaleN (x : Option ℚ) (f : ℚ) : Option ℤ :=
  x.map (fun q => jsRound (q * f))

/-- `calculateNegotiationRange`'s record when the base price may be
`undefined`, so the rounded fields may be `NaN`. -/
structure NegotiationRangeN where
  absoluteMinimum : Option ℤ
  safeMinimum : Option ℤ
  marketPrice : Option ℤ
  premiumPrice : Option ℤ
  recommendedStart : Option ℤ
  acceptableRange : Option ℤ × Option ℤ
  maxDiscount : ℚ
deriving Repr, DecidableEq

/-- `calculateNegotiationRange` (source lines 2658-2691) on a possibly
`undefined` base price: the same arithmetic, with
`Math.round(undefined * f) = NaN` propagated as `none`. -/
def calculateNegotiationRangeN (eng : PriceEngine) (basePrice : Option ℚ) :
    NegotiationRangeN :=
  let maxDiscount := orQ eng.negotiationRules.maxDiscount (15 / 100)
  let minMargin : ℚ := 5 / 100
  let absoluteMin := jsRoundScaleN basePrice (1 - maxDiscount)
  let safeMin := jsRoundScaleN basePrice (1 - maxDiscount + minMargin)
  let market := basePrice.map jsRound
  let premium := jsRoundScaleN basePrice (11 / 10)
  { absoluteMinimum := absoluteMin
    safeMinimum := safeMin
    marketPrice := market
    premiumPrice := premium
    recommendedStart := premium
    acceptableRange := (safeMin, premium)
    maxDiscount := maxDiscount }

/-- The quote `getMarketPrice` returns under full property semantics: the
three price fields are `Math.round` results that may be `NaN` (`none`). -/
structure PriceQuoteN where
  product : Option Str
  category : Str
  marketPrice : Option ℤ
  minPrice : Option ℤ
  maxPrice : Option ℤ
  unit : Str
  bulkThreshold : ℚ
  bulkDiscount : ℚ
  negotiationRange : NegotiationRangeN
  confidence : ℚ
  source : Str
deriving Repr, DecidableEq

/-- `applyMarketVariations` (source lines 2820-2842) on possibly `undefined`
prices: `Math.round(undefined * (1 + variation)) = NaN`. An inherited
(truthy) `this.categories[category]` value reads `seasonalVariation` as
`undefined` exactly like the `{}` fallback, so the category side needs no
prototype case. -/
def applyMarketVariationsN (eng : PriceEngine) (pf : ProductFields)
    (category : Option Str) (r : ℚ) : Option ℤ × Option ℤ × Option ℤ :=
  let catInfo := category.bind (fun c => eng.categories.lookup c)
  let seasonalVariation := orQ (catInfo.bind (fun cd => cd.seasonalVariation)) (1 / 10)
  let variation := (r - 1 / 2) * seasonalVariation
  (jsRoundScaleN pf.marketPrice (1 + variation),
   jsRoundScaleN pf.minPrice (1 + variation),
   jsRoundScaleN pf.maxPrice (1 + variation))

/-- `getCategoryDefaults` (source lines 2799-2818) with full property
semantics on `this.categories[category]`: a category name inherited from
`Object.prototype` passes the truthiness guard with `averagePrice` and
`defaultMargin` reading `undefined`, so the documented defaults apply. -/
def getCategoryDefaultsP (eng : PriceEngine) (category : Str) :
    Option ProductFields :=
  let own := eng.categories.lookup category
  if own.isSome || protoKeys.contains category then
    let basePrice := orQ (own.bind (fun cd => cd.averagePrice)) 50
    let margin := orQ (own.bind (fun cd => cd.defaultMargin)) (15 / 100)
    some { marketPrice := some basePrice
           minPrice := some ((jsRound (basePrice * (1 - margin)) : ℤ) : ℚ)
           maxPrice := some ((jsRound (basePrice * (1 + margin)) : ℤ) : ℚ)
           unit := some (jstr "kg")
           bulkThreshold := some 5
           bulkDiscount := some (5 / 100)
           category := some category
           confidence := some (1 / 2)
           source := some (jstr "category_default") }
  else none

/-- `getMarketPrice` (source lines 2608-2656) under full JavaScript property
semantics: the direct lookup on line 2614 walks the prototype chain, so a
normalized product that names an `Object.prototype` property (after
normalization, `"constructor"` is the reachable one) produces a truthy
`productData` whose numeric fields all read `undefined`, and the returned
quote's prices are `NaN`. A `null` subscript reads the key `"null"`. The
catch handlers stay unreachable: `NaN` arithmetic throws nothing. -/
def getMarketPriceProto (eng : PriceEngine) (product category : Option Str)
    (r : ℚ) : Option PriceQuoteN :=
  let normalizedProduct := normalizeProductName product
  let direct := objectGet eng.priceData
    (match normalizedProduct with
     | none => jstr "null"
     | some s => s)
  let fuzzy :=
    match direct with
    | some d => some d
    | none => (findProductByFuzzyMatch eng normalizedProduct).map fieldsOfProduct
  let productData :=
    match fuzzy with
    | some d => some d
    | none =>
      match category with
      | some c =>
        if c ≠ [] ∧ c ≠ jstr "general" then getCategoryDefaultsP eng c else none
      | none => none
  match productData with
  | none => none
  | some pf =>
    let range := calculateNegotiationRangeN eng pf.marketPrice
    let adjusted := applyMarketVariationsN eng pf category r
    some { product := normalizedProduct
           category := orStr category (orStr pf.category (jstr "general"))
           marketPrice := adjusted.1
           minPrice := adjusted.2.1
           maxPrice := adjusted.2.2
           unit := orStr pf.unit (jstr "kg")
           bulkThreshold := orQ pf.bulkThreshold 5
           bulkDiscount := orQ pf.bulkDiscount (5 / 100)
           negotiationRange := range
           confidence := orQ pf.confidence (8 / 10)
           source := orStr pf.source (jstr "static_data") }

end PriceDiscoveryEngine

/-- Case-insensitive `isPrefixOf` (the `i` flag of the source's regexes;
ASCII case folding). -/
def ciPrefixOf : Str → Str → Bool
  | [], _ => true
  | _ :: _, [] => false
  | p :: ps, c :: cs => (p.toLower == c.toLower) && ciPrefixOf ps cs

/-- Whether an optional character is a word character; the start and end of
the string count as non-word. -/
def isWordOpt (c : Option Char) : Bool :=
  match c with
  | some x => isWordJS x
  | none => false

/-- JavaScript's regex word-boundary assertion between two (optional)
characters. -/
def wordBoundary (l r : Option Char) : Bool := isWordOpt l != isWordOpt r

/-- Scan of a `\b(w1|w2|...)\b` regex test over the text: at each position try
the words in order, each with its boundary checks. `prev` is the character
before the current position. -/
def testWordsAux (words : List Str) (prev : Option Char) : Str → Bool
  | [] => false
  | c :: rest =>
    (words.any (fun w =>
      ciPrefixOf w (c :: rest) &&
      wordBoundary prev (some c) &&
      wordBoundary ((c :: rest).take w.length).getLast? ((c :: rest).drop w.length).head?))
    || testWordsAux words (some c) rest

/-- JavaScript's `/\b(w1|w2|...)\b/i.test(text)`. -/
def testWords (words : List Str) (text : Str) : Bool := testWordsAux words none text

/-- JavaScript's number-to-string coercion for a natural number. -/
def natToStr (n : Nat) : Str := (toString n).data

namespace IntentClassifier

/-- A quantity extracted from the text (`{amount, unit}`). -/
structure QuantityInfo where
  amount : Nat
  unit : Str
deriving Repr, DecidableEq

/-- The three intent scores (`{bargaining, bulk_purchase, casual_inquiry}`). -/
structure Scores where
  bargaining : Nat
  bulk_purchase : Nat
  casual_inquiry : Nat
deriving Repr, DecidableEq

/-- The record `classifyIntent` returns (source lines 2052-2063). `type` is
an `Option` because the source's `selectPrimaryIntent` uses `find`, whose
result JavaScript types as possibly `undefined`. -/
structure ClassifiedIntent where
  type : Option Str
  confidence : ℚ
  keywords : List Str
  product : Str
  category : Str
  quantity : Option QuantityInfo
  language : Str
  originalText : Str
  normalizedText : Str
  scores : Scores
deriving Repr, DecidableEq

/-- One intent pattern: keywords scored +1, phrases scored +2. -/
structure Pattern where
  keywords : List Str
  phrases : List Str
deriving Repr, DecidableEq

/-- Source lines 1435-1526 of the `IntentClassifier` constructor. -/
def bargainingKeywords : List Str :=
  [jstr "price",
   jstr "cost",
   jstr "expensive",
   jstr "cheap",
   jstr "discount",
   jstr "reduce",
   jstr "lower",
   jstr "negotiate",
   jstr "deal",
   jstr "offer",
   jstr "bargain",
   jstr "less",
   jstr "more",
   jstr "final",
   jstr "best",
   jstr "last",
   jstr "counter",
   jstr "daam",
   jstr "kimat",
   jstr "sasta",
   jstr "mehenga",
   jstr "kam",
   jstr "zyada",
   jstr "chhoot",
   jstr "discount",
   jstr "bhav",
   jstr "rate",
   jstr "paisa",
   jstr "rupaya",
   jstr "mahanga",
   jstr "saste",
   jstr "kam karo",
   jstr "ghatao",
   jstr "achha daam",
   jstr "theek hai",
   jstr "nahi chalega",
   jstr "zyada hai",
   jstr "kam kijiye",
   jstr "bele",
   jstr "duddu",
   jstr "kammi",
   jstr "jaasti",
   jstr "olleya",
   jstr "chennagide",
   jstr "bekagilla",
   jstr "rate",
   jstr "paisa",
   jstr "rupai",
   jstr "jaasti ide",
   jstr "kammi maadi",
   jstr "bere bele",
   jstr "olleya bele",
   jstr "last bele",
   jstr "kam maadi",
   jstr "vilai",
   jstr "panam",
   jstr "kammiya",
   jstr "jaastiya",
   jstr "nalla vilai",
   jstr "kammi pannunga",
   jstr "rate",
   jstr "paisa",
   jstr "jaasti",
   jstr "kammi",
   jstr "discount kudunga",
   jstr "vilai kammi",
   jstr "rate",
   jstr "dabbu",
   jstr "takkuva",
   jstr "ekkuva",
   jstr "manchidi",
   jstr "takkuva cheyyandi",
   jstr "discount",
   jstr "paisa",
   jstr "rate ekkuva",
   jstr "takkuva rate",
   jstr "manchiga ivvandi",
   jstr "dam",
   jstr "taka",
   jstr "kom",
   jstr "beshi",
   jstr "bhalo dam",
   jstr "kom koren",
   jstr "discount",
   jstr "rate",
   jstr "paisa",
   jstr "beshi hoyeche",
   jstr "kom korte hobe",
   jstr "bhalo rate",
   jstr "bhav",
   jstr "paisa",
   jstr "kami",
   jstr "jasta",
   jstr "changle bhav",
   jstr "kami kara",
   jstr "discount",
   jstr "rate",
   jstr "jasta ahe",
   jstr "kami karaycha",
   jstr "changla rate dya",
   jstr "bhav",
   jstr "paisa",
   jstr "ochhu",
   jstr "vadhare",
   jstr "saras bhav",
   jstr "ochhu karo",
   jstr "discount",
   jstr "rate",
   jstr "vadhare che",
   jstr "ochhu karvo",
   jstr "saras rate apo",
   jstr "rate",
   jstr "paisa",
   jstr "ghat",
   jstr "vadh",
   jstr "changa rate",
   jstr "ghat karo",
   jstr "discount",
   jstr "bhav",
   jstr "vadh hai",
   jstr "ghat karni",
   jstr "changa bhav deo",
   jstr "dam",
   jstr "paisa",
   jstr "kam",
   jstr "besi",
   jstr "bhala dam",
   jstr "kam kara",
   jstr "discount",
   jstr "rate",
   jstr "besi hei gala",
   jstr "kam kariba",
   jstr "bhala rate dia",
   jstr "vila",
   jstr "paisa",
   jstr "kurav",
   jstr "kooduthal",
   jstr "nalla vila",
   jstr "kurav aakku",
   jstr "discount",
   jstr "rate",
   jstr "kooduthal aanu",
   jstr "kurav aakkam",
   jstr "nalla rate tharumo",
   jstr "dam",
   jstr "taka",
   jstr "kom",
   jstr "besi",
   jstr "bhal dam",
   jstr "kom kora",
   jstr "discount",
   jstr "rate",
   jstr "besi hoise",
   jstr "kom koribo",
   jstr "bhal rate diba",
   jstr "qeemat",
   jstr "paisa",
   jstr "kam",
   jstr "zyada",
   jstr "achhi qeemat",
   jstr "kam karo",
   jstr "discount",
   jstr "rate",
   jstr "zyada hai",
   jstr "kam karna",
   jstr "achha rate do",
   jstr "qeemat",
   jstr "paisa",
   jstr "ghat",
   jstr "vadh",
   jstr "sahi qeemat",
   jstr "ghat karo",
   jstr "discount",
   jstr "rate",
   jstr "vadh ahe",
   jstr "ghat karyo",
   jstr "sahi rate dyo",
   jstr "qeemat",
   jstr "paisa",
   jstr "kam",
   jstr "zyada",
   jstr "achhi qeemat",
   jstr "kam kar",
   jstr "discount",
   jstr "rate",
   jstr "zyada chu",
   jstr "kam karin",
   jstr "achha rate diyiv",
   jstr "dam",
   jstr "paisa",
   jstr "kam",
   jstr "besi",
   jstr "nik dam",
   jstr "kam karu",
   jstr "discount",
   jstr "rate",
   jstr "besi achi",
   jstr "kam karna",
   jstr "nik rate diyau",
   jstr "dam",
   jstr "paisa",
   jstr "kam",
   jstr "jyada",
   jstr "achha dam",
   jstr "kam kara",
   jstr "discount",
   jstr "rate",
   jstr "jyada ba",
   jstr "kam kara",
   jstr "achha rate da",
   jstr "dam",
   jstr "paisa",
   jstr "kam",
   jstr "jyada",
   jstr "achha dam",
   jstr "kam kara",
   jstr "discount",
   jstr "rate",
   jstr "jyada ba",
   jstr "kam kara",
   jstr "achha rate da",
   jstr "bhav",
   jstr "paisa",
   jstr "ghat",
   jstr "vadh",
   jstr "achho bhav",
   jstr "ghat karo",
   jstr "discount",
   jstr "rate",
   jstr "vadh hai",
   jstr "ghat karyo",
   jstr "achho rate dyo",
   jstr "bhav",
   jstr "paisa",
   jstr "kam",
   jstr "jast",
   jstr "borem bhav",
   jstr "kam kar",
   jstr "discount",
   jstr "rate",
   jstr "jast asa",
   jstr "kam kara",
   jstr "borem rate di",
   jstr "dam",
   jstr "taka",
   jstr "huru",
   jstr "besi",
   jstr "bhal dam",
   jstr "huru em",
   jstr "discount",
   jstr "rate",
   jstr "besi menakata",
   jstr "huru kora",
   jstr "bhal rate em",
   jstr "sel",
   jstr "sel",
   jstr "machak",
   jstr "yamna",
   jstr "phaba sel",
   jstr "machak touba",
   jstr "discount",
   jstr "rate",
   jstr "yamna chaoba",
   jstr "machak toukho",
   jstr "phaba rate piba",
   jstr "mwi",
   jstr "taka",
   jstr "nwngkha",
   jstr "gab",
   jstr "gizang mwi",
   jstr "nwngkha hwnay",
   jstr "discount",
   jstr "rate",
   jstr "gab dong",
   jstr "nwngkha hwnay",
   jstr "gizang rate bi",
   jstr "bhav",
   jstr "paisa",
   jstr "ghat",
   jstr "jyada",
   jstr "achha bhav",
   jstr "ghat karo",
   jstr "discount",
   jstr "rate",
   jstr "jyada hai",
   jstr "ghat karna",
   jstr "achha rate dao",
   jstr "mulya",
   jstr "paisa",
   jstr "kam",
   jstr "dherai",
   jstr "ramro mulya",
   jstr "kam gara",
   jstr "discount",
   jstr "rate",
   jstr "dherai cha",
   jstr "kam garnu",
   jstr "ramro rate dinu",
   jstr "precio",
   jstr "dinero",
   jstr "barato",
   jstr "caro",
   jstr "buen precio",
   jstr "reducir",
   jstr "descuento",
   jstr "rate",
   jstr "muy caro",
   jstr "hacer descuento",
   jstr "mejor precio",
   jstr "prix",
   jstr "argent",
   jstr "pas cher",
   jstr "cher",
   jstr "bon prix",
   jstr "reduire",
   jstr "remise",
   jstr "rate",
   jstr "trop cher",
   jstr "faire remise",
   jstr "meilleur prix",
   jstr "si'r",
   jstr "maal",
   jstr "rakhees",
   jstr "ghaali",
   jstr "si'r jayyid",
   jstr "qallil",
   jstr "takhfeed",
   jstr "rate",
   jstr "ghaali jiddan",
   jstr "a'ti takhfeed",
   jstr "ahsan si'r",
   jstr "preco",
   jstr "dinheiro",
   jstr "barato",
   jstr "caro",
   jstr "bom preco",
   jstr "reduzir",
   jstr "desconto",
   jstr "rate",
   jstr "muito caro",
   jstr "dar desconto",
   jstr "melhor preco",
   jstr "jiage",
   jstr "qian",
   jstr "pianyi",
   jstr "gui",
   jstr "hao jiage",
   jstr "jianshao",
   jstr "zhekou",
   jstr "rate",
   jstr "tai gui",
   jstr "gei zhekou",
   jstr "geng hao jiage"]

/-- Source lines 1529-1530 of the `IntentClassifier` constructor. -/
def bargainingPhrases : List Str :=
  [jstr "how much",
   jstr "what price",
   jstr "too expensive",
   jstr "too much",
   jstr "can you reduce",
   jstr "best price",
   jstr "final price",
   jstr "last price",
   jstr "give discount",
   jstr "make it cheaper"]

/-- Source lines 1535-1619 of the `IntentClassifier` constructor. -/
def bulkKeywords : List Str :=
  [jstr "bulk",
   jstr "wholesale",
   jstr "quantity",
   jstr "kg",
   jstr "liter",
   jstr "dozen",
   jstr "box",
   jstr "sack",
   jstr "bag",
   jstr "many",
   jstr "lot",
   jstr "tons",
   jstr "kilos",
   jstr "pieces",
   jstr "units",
   jstr "carton",
   jstr "thok",
   jstr "saara",
   jstr "bahut",
   jstr "kilo",
   jstr "litre",
   jstr "bori",
   jstr "thaila",
   jstr "wholesale",
   jstr "jyada",
   jstr "poora",
   jstr "sabka",
   jstr "kitna kilo",
   jstr "kitne kg",
   jstr "bada order",
   jstr "bulk mein",
   jstr "saath mein",
   jstr "ek saath",
   jstr "thumba",
   jstr "sarva",
   jstr "kilo",
   jstr "litre",
   jstr "gunny",
   jstr "bere",
   jstr "jaasti",
   jstr "wholesale",
   jstr "ella",
   jstr "total",
   jstr "eshtu kilo",
   jstr "dodda order",
   jstr "neraya",
   jstr "ellam",
   jstr "kilo",
   jstr "litre",
   jstr "wholesale",
   jstr "periya order",
   jstr "evvalavu kilo",
   jstr "total",
   jstr "bulk",
   jstr "jaasti quantity",
   jstr "ekkuva",
   jstr "antha",
   jstr "kilo",
   jstr "litre",
   jstr "wholesale",
   jstr "pedda order",
   jstr "entha kilo",
   jstr "total",
   jstr "bulk",
   jstr "ekkuva quantity",
   jstr "beshi",
   jstr "shob",
   jstr "kilo",
   jstr "litre",
   jstr "wholesale",
   jstr "boro order",
   jstr "koto kilo",
   jstr "total",
   jstr "bulk",
   jstr "beshi quantity",
   jstr "jasta",
   jstr "sarva",
   jstr "kilo",
   jstr "litre",
   jstr "wholesale",
   jstr "motha order",
   jstr "kiti kilo",
   jstr "total",
   jstr "bulk",
   jstr "jasta quantity",
   jstr "vadhare",
   jstr "badhu",
   jstr "kilo",
   jstr "litre",
   jstr "wholesale",
   jstr "motu order",
   jstr "ketla kilo",
   jstr "total",
   jstr "bulk",
   jstr "vadhare quantity",
   jstr "vadh",
   jstr "sara",
   jstr "kilo",
   jstr "litre",
   jstr "wholesale",
   jstr "vadda order",
   jstr "kinna kilo",
   jstr "total",
   jstr "bulk",
   jstr "vadh quantity",
   jstr "besi",
   jstr "saba",
   jstr "kilo",
   jstr "litre",
   jstr "wholesale",
   jstr "bada order",
   jstr "kete kilo",
   jstr "total",
   jstr "bulk",
   jstr "besi quantity",
   jstr "kooduthal",
   jstr "ellam",
   jstr "kilo",
   jstr "litre",
   jstr "wholesale",
   jstr "valiya order",
   jstr "ethra kilo",
   jstr "total",
   jstr "bulk",
   jstr "kooduthal quantity",
   jstr "besi",
   jstr "xokolo",
   jstr "kilo",
   jstr "litre",
   jstr "wholesale",
   jstr "boro order",
   jstr "kiman kilo",
   jstr "total",
   jstr "bulk",
   jstr "besi quantity",
   jstr "zyada",
   jstr "sab",
   jstr "kilo",
   jstr "litre",
   jstr "wholesale",
   jstr "bara order",
   jstr "kitna kilo",
   jstr "total",
   jstr "bulk",
   jstr "zyada quantity",
   jstr "vadh",
   jstr "sab",
   jstr "kilo",
   jstr "litre",
   jstr "wholesale",
   jstr "vaddo order",
   jstr "ketro kilo",
   jstr "total",
   jstr "bulk",
   jstr "vadh quantity",
   jstr "zyada",
   jstr "sab",
   jstr "kilo",
   jstr "litre",
   jstr "wholesale",
   jstr "bado order",
   jstr "kati kilo",
   jstr "total",
   jstr "bulk",
   jstr "zyada quantity",
   jstr "besi",
   jstr "sab",
   jstr "kilo",
   jstr "litre",
   jstr "wholesale",
   jstr "bara order",
   jstr "kete kilo",
   jstr "total",
   jstr "bulk",
   jstr "besi quantity",
   jstr "jyada",
   jstr "sab",
   jstr "kilo",
   jstr "litre",
   jstr "wholesale",
   jstr "bara order",
   jstr "ketna kilo",
   jstr "total",
   jstr "bulk",
   jstr "jyada quantity",
   jstr "jyada",
   jstr "sab",
   jstr "kilo",
   jstr "litre",
   jstr "wholesale",
   jstr "bara order",
   jstr "ketna kilo",
   jstr "total",
   jstr "bulk",
   jstr "jyada quantity",
   jstr "vadh",
   jstr "sab",
   jstr "kilo",
   jstr "litre",
   jstr "wholesale",
   jstr "moto order",
   jstr "ketlo kilo",
   jstr "total",
   jstr "bulk",
   jstr "vadh quantity",
   jstr "jast",
   jstr "soglim",
   jstr "kilo",
   jstr "litre",
   jstr "wholesale",
   jstr "vhodd order",
   jstr "kitlem kilo",
   jstr "total",
   jstr "bulk",
   jstr "jast quantity",
   jstr "besi",
   jstr "sanam",
   jstr "kilo",
   jstr "litre",
   jstr "wholesale",
   jstr "maran order",
   jstr "chetan kilo",
   jstr "total",
   jstr "bulk",
   jstr "besi quantity",
   jstr "yamna",
   jstr "pumnamak",
   jstr "kilo",
   jstr "litre",
   jstr "wholesale",
   jstr "achouba order",
   jstr "kaya kilo",
   jstr "total",
   jstr "bulk",
   jstr "yamna quantity",
   jstr "gohom",
   jstr "mwi",
   jstr "kilo",
   jstr "litre",
   jstr "wholesale",
   jstr "gidang order",
   jstr "mansi kilo",
   jstr "total",
   jstr "bulk",
   jstr "gohom quantity",
   jstr "mota",
   jstr "sara",
   jstr "kilo",
   jstr "litre",
   jstr "wholesale",
   jstr "wadda order",
   jstr "kinna kilo",
   jstr "total",
   jstr "bulk",
   jstr "mota quantity",
   jstr "mucho",
   jstr "todo",
   jstr "kilo",
   jstr "litro",
   jstr "mayoreo",
   jstr "gran pedido",
   jstr "cuanto kilo",
   jstr "total",
   jstr "bulk",
   jstr "mucha cantidad",
   jstr "beaucoup",
   jstr "tout",
   jstr "kilo",
   jstr "litre",
   jstr "gros",
   jstr "grande commande",
   jstr "combien kilo",
   jstr "total",
   jstr "bulk",
   jstr "grande quantite",
   jstr "katheer",
   jstr "kull",
   jstr "kilo",
   jstr "litr",
   jstr "jumla",
   jstr "talab kabeer",
   jstr "kam kilo",
   jstr "majmoo",
   jstr "bulk",
   jstr "kammiya kabeera",
   jstr "muito",
   jstr "tudo",
   jstr "kilo",
   jstr "litro",
   jstr "atacado",
   jstr "grande pedido",
   jstr "quanto kilo",
   jstr "total",
   jstr "bulk",
   jstr "muita quantidade"]

/-- Source lines 1622-1623 of the `IntentClassifier` constructor. -/
def bulkPhrases : List Str :=
  [jstr "buy in bulk",
   jstr "large quantity",
   jstr "wholesale price",
   jstr "bulk discount",
   jstr "how much for",
   jstr "rate per kg",
   jstr "per kilo",
   jstr "per liter"]

/-- Source lines 1628-1713 of the `IntentClassifier` constructor. -/
def casualKeywords : List Str :=
  [jstr "what",
   jstr "which",
   jstr "where",
   jstr "when",
   jstr "how",
   jstr "available",
   jstr "have",
   jstr "sell",
   jstr "fresh",
   jstr "quality",
   jstr "good",
   jstr "best",
   jstr "type",
   jstr "variety",
   jstr "kind",
   jstr "kya",
   jstr "kaun",
   jstr "kahan",
   jstr "kab",
   jstr "kaise",
   jstr "hai",
   jstr "milta",
   jstr "accha",
   jstr "taaza",
   jstr "quality",
   jstr "fresh",
   jstr "available",
   jstr "kya hai",
   jstr "kya milta",
   jstr "accha hai",
   jstr "taaza hai",
   jstr "fresh hai",
   jstr "quality kaisi",
   jstr "kahan se",
   jstr "kab aaya",
   jstr "yaava",
   jstr "elli",
   jstr "yaavaga",
   jstr "hegge",
   jstr "ide",
   jstr "chennaagide",
   jstr "hosa",
   jstr "quality",
   jstr "fresh",
   jstr "sigutta",
   jstr "yaav quality",
   jstr "hosa ide",
   jstr "fresh ide",
   jstr "chennaag ide",
   jstr "elli sigutta",
   jstr "yaavaga banthu",
   jstr "enna",
   jstr "enga",
   jstr "eppo",
   jstr "eppadi",
   jstr "irukku",
   jstr "nalla",
   jstr "fresh",
   jstr "quality",
   jstr "kidaikuma",
   jstr "nalla quality",
   jstr "fresh ah irukka",
   jstr "enga kedaikum",
   jstr "enti",
   jstr "ekkada",
   jstr "eppudu",
   jstr "ela",
   jstr "undi",
   jstr "manchidi",
   jstr "fresh",
   jstr "quality",
   jstr "dorukutunda",
   jstr "manchi quality",
   jstr "fresh ga unda",
   jstr "ekkada dorukutundi",
   jstr "ki",
   jstr "kothay",
   jstr "kokhon",
   jstr "kemne",
   jstr "ache",
   jstr "bhalo",
   jstr "fresh",
   jstr "quality",
   jstr "pawa jay",
   jstr "bhalo quality",
   jstr "fresh ache",
   jstr "kothay pabo",
   jstr "kay",
   jstr "kuthe",
   jstr "kevha",
   jstr "kase",
   jstr "ahe",
   jstr "changla",
   jstr "fresh",
   jstr "quality",
   jstr "milte",
   jstr "changla quality",
   jstr "fresh ahe",
   jstr "kuthe milte",
   jstr "shu",
   jstr "kya",
   jstr "kyare",
   jstr "kem",
   jstr "che",
   jstr "saras",
   jstr "fresh",
   jstr "quality",
   jstr "male",
   jstr "saras quality",
   jstr "fresh che",
   jstr "kya male",
   jstr "ki",
   jstr "kithe",
   jstr "kado",
   jstr "kive",
   jstr "hai",
   jstr "changa",
   jstr "fresh",
   jstr "quality",
   jstr "milda",
   jstr "changa quality",
   jstr "fresh hai",
   jstr "kithe milda",
   jstr "kana",
   jstr "kouthi",
   jstr "kebe",
   jstr "kemiti",
   jstr "achi",
   jstr "bhala",
   jstr "fresh",
   jstr "quality",
   jstr "miliba",
   jstr "bhala quality",
   jstr "fresh achi",
   jstr "kouthi miliba",
   jstr "enthu",
   jstr "evide",
   jstr "eppol",
   jstr "engane",
   jstr "undu",
   jstr "nalla",
   jstr "fresh",
   jstr "quality",
   jstr "kittum",
   jstr "nalla quality",
   jstr "fresh aanu",
   jstr "evide kittum",
   jstr "ki",
   jstr "kot",
   jstr "keti",
   jstr "kene",
   jstr "ase",
   jstr "bhal",
   jstr "fresh",
   jstr "quality",
   jstr "pam",
   jstr "bhal quality",
   jstr "fresh ase",
   jstr "kot pam",
   jstr "kya",
   jstr "kahan",
   jstr "kab",
   jstr "kaise",
   jstr "hai",
   jstr "achha",
   jstr "taaza",
   jstr "quality",
   jstr "milta",
   jstr "achhi quality",
   jstr "taaza hai",
   jstr "kahan milta",
   jstr "kya",
   jstr "kithe",
   jstr "kado",
   jstr "kiven",
   jstr "ahe",
   jstr "sahi",
   jstr "taajo",
   jstr "quality",
   jstr "milando",
   jstr "sahi quality",
   jstr "taajo ahe",
   jstr "kithe milando",
   jstr "kya",
   jstr "kati",
   jstr "kus",
   jstr "kathan",
   jstr "chu",
   jstr "zanaan",
   jstr "taaza",
   jstr "quality",
   jstr "milaan",
   jstr "zanaan quality",
   jstr "taaza chu",
   jstr "kati milaan",
   jstr "ki",
   jstr "kahan",
   jstr "kakhon",
   jstr "kona",
   jstr "achi",
   jstr "nik",
   jstr "taaja",
   jstr "quality",
   jstr "bhetait",
   jstr "nik quality",
   jstr "taaja achi",
   jstr "kahan bhetait",
   jstr "ka",
   jstr "kahan",
   jstr "kab",
   jstr "kaise",
   jstr "ba",
   jstr "achha",
   jstr "taaja",
   jstr "quality",
   jstr "milela",
   jstr "achha quality",
   jstr "taaja ba",
   jstr "kahan milela",
   jstr "ka",
   jstr "kahan",
   jstr "kab",
   jstr "kaise",
   jstr "ba",
   jstr "achha",
   jstr "taaja",
   jstr "quality",
   jstr "milela",
   jstr "achha quality",
   jstr "taaja ba",
   jstr "kahan milela",
   jstr "kya",
   jstr "kyan",
   jstr "kado",
   jstr "kaise",
   jstr "hai",
   jstr "achho",
   jstr "taajo",
   jstr "quality",
   jstr "mile",
   jstr "achho quality",
   jstr "taajo hai",
   jstr "kyan mile",
   jstr "kitem",
   jstr "khoim",
   jstr "kedna",
   jstr "koxem",
   jstr "asa",
   jstr "borem",
   jstr "fresh",
   jstr "quality",
   jstr "mellta",
   jstr "borem quality",
   jstr "fresh asa",
   jstr "khoim mellta",
   jstr "china",
   jstr "okare",
   jstr "okte",
   jstr "chinate",
   jstr "menakata",
   jstr "bhal",
   jstr "noa",
   jstr "quality",
   jstr "namaka",
   jstr "bhal quality",
   jstr "noa menakata",
   jstr "okare namaka",
   jstr "kari",
   jstr "kadaida",
   jstr "karamda",
   jstr "karamna",
   jstr "lei",
   jstr "phaba",
   jstr "anaba",
   jstr "quality",
   jstr "phangani",
   jstr "phaba quality",
   jstr "anaba lei",
   jstr "kadaida phangani",
   jstr "ma",
   jstr "mobai",
   jstr "mwjang",
   jstr "maobai",
   jstr "dong",
   jstr "gober",
   jstr "gidang",
   jstr "quality",
   jstr "mwn",
   jstr "gober quality",
   jstr "gidang dong",
   jstr "mobai mwn",
   jstr "kya",
   jstr "kithe",
   jstr "kado",
   jstr "kive",
   jstr "hai",
   jstr "changa",
   jstr "taaja",
   jstr "quality",
   jstr "milda",
   jstr "changa quality",
   jstr "taaja hai",
   jstr "kithe milda",
   jstr "que",
   jstr "donde",
   jstr "cuando",
   jstr "como",
   jstr "esta",
   jstr "bueno",
   jstr "fresco",
   jstr "calidad",
   jstr "hay",
   jstr "buena calidad",
   jstr "esta fresco",
   jstr "donde hay",
   jstr "quoi",
   jstr "ou",
   jstr "quand",
   jstr "comment",
   jstr "est",
   jstr "bon",
   jstr "frais",
   jstr "qualite",
   jstr "il y a",
   jstr "bonne qualite",
   jstr "est frais",
   jstr "ou il y a",
   jstr "matha",
   jstr "ayn",
   jstr "mata",
   jstr "kayf",
   jstr "huwa",
   jstr "jayyid",
   jstr "taazaj",
   jstr "jawda",
   jstr "yujad",
   jstr "jawda jayyida",
   jstr "taazaj huwa",
   jstr "ayn yujad",
   jstr "que",
   jstr "onde",
   jstr "quando",
   jstr "como",
   jstr "esta",
   jstr "bom",
   jstr "fresco",
   jstr "qualidade",
   jstr "tem",
   jstr "boa qualidade",
   jstr "esta fresco",
   jstr "onde tem"]

/-- Source lines 1716-1717 of the `IntentClassifier` constructor. -/
def casualPhrases : List Str :=
  [jstr "do you have",
   jstr "is it fresh",
   jstr "what varieties",
   jstr "which type",
   jstr "how is quality",
   jstr "what do you sell",
   jstr "what is available"]

/-- Source lines 1725-1771 of the `IntentClassifier` constructor. -/
def grainsList : List Str :=
  [jstr "rice",
   jstr "wheat",
   jstr "dal",
   jstr "lentil",
   jstr "chawal",
   jstr "gehun",
   jstr "daal",
   jstr "masoor",
   jstr "akki",
   jstr "godhi",
   jstr "bele",
   jstr "hesaru",
   jstr "arisi",
   jstr "godhumai",
   jstr "paruppu",
   jstr "thuvarai",
   jstr "biyyam",
   jstr "godhuma",
   jstr "pappu",
   jstr "pesalu",
   jstr "chal",
   jstr "gom",
   jstr "dal",
   jstr "masur",
   jstr "tandul",
   jstr "gahu",
   jstr "dal",
   jstr "masur",
   jstr "chaval",
   jstr "ghau",
   jstr "dal",
   jstr "masur",
   jstr "chawal",
   jstr "kanak",
   jstr "dal",
   jstr "masur",
   jstr "chaula",
   jstr "gahama",
   jstr "dal",
   jstr "masura",
   jstr "ari",
   jstr "gothambu",
   jstr "parippu",
   jstr "cherupayar",
   jstr "bhat",
   jstr "ghom",
   jstr "dal",
   jstr "masur",
   jstr "chawal",
   jstr "gehun",
   jstr "dal",
   jstr "masoor",
   jstr "chawar",
   jstr "kani",
   jstr "dal",
   jstr "masur",
   jstr "batta",
   jstr "kanak",
   jstr "dal",
   jstr "masur",
   jstr "chaur",
   jstr "gahum",
   jstr "dal",
   jstr "masur",
   jstr "chaur",
   jstr "gahum",
   jstr "dal",
   jstr "masur",
   jstr "chaur",
   jstr "gahum",
   jstr "dal",
   jstr "masur",
   jstr "chawal",
   jstr "gehun",
   jstr "dal",
   jstr "masur",
   jstr "tandul",
   jstr "gavu",
   jstr "dal",
   jstr "masur",
   jstr "baha",
   jstr "gahum",
   jstr "dal",
   jstr "masur",
   jstr "cheng",
   jstr "sam",
   jstr "dal",
   jstr "masur",
   jstr "bai",
   jstr "gahum",
   jstr "dal",
   jstr "masur",
   jstr "chawal",
   jstr "kanak",
   jstr "dal",
   jstr "masur"]

/-- Source lines 1774-1820 of the `IntentClassifier` constructor. -/
def vegetablesList : List Str :=
  [jstr "onion",
   jstr "tomato",
   jstr "potato",
   jstr "carrot",
   jstr "pyaaz",
   jstr "tamatar",
   jstr "aloo",
   jstr "gajar",
   jstr "eerulli",
   jstr "tamata",
   jstr "aalugadde",
   jstr "gajjari",
   jstr "vengayam",
   jstr "thakkali",
   jstr "urulaikizhangu",
   jstr "carrot",
   jstr "ullipaya",
   jstr "tamata",
   jstr "bangaladumpa",
   jstr "carrot",
   jstr "peyaj",
   jstr "tomato",
   jstr "aloo",
   jstr "gajor",
   jstr "kanda",
   jstr "tamatar",
   jstr "batata",
   jstr "gajar",
   jstr "dungri",
   jstr "tameta",
   jstr "bataka",
   jstr "gajar",
   jstr "piyaz",
   jstr "tamatar",
   jstr "aloo",
   jstr "gajar",
   jstr "piyaja",
   jstr "tamata",
   jstr "aloo",
   jstr "gajara",
   jstr "ulli",
   jstr "thakkali",
   jstr "urulakizhangu",
   jstr "carrot",
   jstr "piyaj",
   jstr "bilahi",
   jstr "aloo",
   jstr "gajor",
   jstr "pyaz",
   jstr "tamatar",
   jstr "aloo",
   jstr "gajar",
   jstr "piyazu",
   jstr "tamatar",
   jstr "aloo",
   jstr "gajar",
   jstr "pyaz",
   jstr "tamatar",
   jstr "aloo",
   jstr "gajar",
   jstr "piyaj",
   jstr "tamatar",
   jstr "aloo",
   jstr "gajar",
   jstr "piyaj",
   jstr "tamatar",
   jstr "aloo",
   jstr "gajar",
   jstr "piyaj",
   jstr "tamatar",
   jstr "aloo",
   jstr "gajar",
   jstr "piyaj",
   jstr "tamatar",
   jstr "aloo",
   jstr "gajar",
   jstr "kando",
   jstr "tamatar",
   jstr "batata",
   jstr "gajar",
   jstr "piyaj",
   jstr "tamatar",
   jstr "aloo",
   jstr "gajar",
   jstr "tilhou",
   jstr "tamatar",
   jstr "aloo",
   jstr "gajar",
   jstr "piyaj",
   jstr "tamatar",
   jstr "aloo",
   jstr "gajar",
   jstr "piyaz",
   jstr "tamatar",
   jstr "aloo",
   jstr "gajar"]

/-- Source lines 1823-1869 of the `IntentClassifier` constructor. -/
def fruitsList : List Str :=
  [jstr "apple",
   jstr "banana",
   jstr "mango",
   jstr "orange",
   jstr "seb",
   jstr "kela",
   jstr "aam",
   jstr "santra",
   jstr "sebu",
   jstr "balehannu",
   jstr "mavina",
   jstr "kittale",
   jstr "apple",
   jstr "vazhaipazham",
   jstr "maanga",
   jstr "orange",
   jstr "apple",
   jstr "arati",
   jstr "mamidi",
   jstr "orange",
   jstr "apple",
   jstr "kola",
   jstr "aam",
   jstr "komla",
   jstr "safarchand",
   jstr "kela",
   jstr "amba",
   jstr "santra",
   jstr "apple",
   jstr "kela",
   jstr "keri",
   jstr "santra",
   jstr "seb",
   jstr "kela",
   jstr "aam",
   jstr "santra",
   jstr "apple",
   jstr "kadali",
   jstr "amba",
   jstr "komala",
   jstr "apple",
   jstr "vazha",
   jstr "manga",
   jstr "orange",
   jstr "apple",
   jstr "kol",
   jstr "aam",
   jstr "komola",
   jstr "seb",
   jstr "kela",
   jstr "aam",
   jstr "santra",
   jstr "seb",
   jstr "kela",
   jstr "aam",
   jstr "santra",
   jstr "seb",
   jstr "kela",
   jstr "aam",
   jstr "santra",
   jstr "seb",
   jstr "kera",
   jstr "aam",
   jstr "santra",
   jstr "seb",
   jstr "kera",
   jstr "aam",
   jstr "santra",
   jstr "seb",
   jstr "kera",
   jstr "aam",
   jstr "santra",
   jstr "seb",
   jstr "kela",
   jstr "aam",
   jstr "santra",
   jstr "apple",
   jstr "kela",
   jstr "mango",
   jstr "santra",
   jstr "apple",
   jstr "kela",
   jstr "aam",
   jstr "orange",
   jstr "apple",
   jstr "laphu",
   jstr "heinou",
   jstr "orange",
   jstr "apple",
   jstr "kela",
   jstr "thaigri",
   jstr "orange",
   jstr "seb",
   jstr "kela",
   jstr "aam",
   jstr "santra"]

/-- Source lines 1872-1918 of the `IntentClassifier` constructor. -/
def dairyList : List Str :=
  [jstr "milk",
   jstr "egg",
   jstr "cheese",
   jstr "doodh",
   jstr "anda",
   jstr "paneer",
   jstr "haalu",
   jstr "motte",
   jstr "paneer",
   jstr "paal",
   jstr "muttai",
   jstr "paneer",
   jstr "palu",
   jstr "guddu",
   jstr "paneer",
   jstr "dudh",
   jstr "dim",
   jstr "paneer",
   jstr "dudh",
   jstr "ande",
   jstr "paneer",
   jstr "dudh",
   jstr "anda",
   jstr "paneer",
   jstr "dudh",
   jstr "anda",
   jstr "paneer",
   jstr "dudha",
   jstr "anda",
   jstr "paneer",
   jstr "paal",
   jstr "mutta",
   jstr "paneer",
   jstr "gakhir",
   jstr "koni",
   jstr "paneer",
   jstr "doodh",
   jstr "anda",
   jstr "paneer",
   jstr "kheeru",
   jstr "ando",
   jstr "paneer",
   jstr "doodh",
   jstr "anda",
   jstr "paneer",
   jstr "dudh",
   jstr "anda",
   jstr "paneer",
   jstr "dudh",
   jstr "anda",
   jstr "paneer",
   jstr "dudh",
   jstr "anda",
   jstr "paneer",
   jstr "dudh",
   jstr "ando",
   jstr "paneer",
   jstr "dudh",
   jstr "ande",
   jstr "paneer",
   jstr "dudh",
   jstr "sim",
   jstr "paneer",
   jstr "singju",
   jstr "ankukpa",
   jstr "paneer",
   jstr "dudh",
   jstr "dao",
   jstr "paneer",
   jstr "dudh",
   jstr "anda",
   jstr "paneer"]

/-- Source lines 1921-1967 of the `IntentClassifier` constructor. -/
def meatList : List Str :=
  [jstr "chicken",
   jstr "fish",
   jstr "mutton",
   jstr "murgi",
   jstr "machli",
   jstr "bakra",
   jstr "koli",
   jstr "meenu",
   jstr "kuri",
   jstr "kozhi",
   jstr "meen",
   jstr "aadu",
   jstr "kodi",
   jstr "chepa",
   jstr "meka",
   jstr "murgi",
   jstr "mach",
   jstr "khashi",
   jstr "kombdi",
   jstr "masa",
   jstr "mutton",
   jstr "murgi",
   jstr "machhi",
   jstr "mutton",
   jstr "murga",
   jstr "machhi",
   jstr "bakra",
   jstr "kukkuta",
   jstr "machha",
   jstr "chhaaga",
   jstr "kozhi",
   jstr "meen",
   jstr "aadu",
   jstr "kukura",
   jstr "mas",
   jstr "sagoli",
   jstr "murgi",
   jstr "machli",
   jstr "bakra",
   jstr "murgi",
   jstr "machhi",
   jstr "bakro",
   jstr "kokur",
   jstr "gaad",
   jstr "mesh",
   jstr "murgi",
   jstr "machh",
   jstr "bakra",
   jstr "murgi",
   jstr "machh",
   jstr "bakra",
   jstr "murgi",
   jstr "machh",
   jstr "bakra",
   jstr "murgi",
   jstr "machli",
   jstr "bakro",
   jstr "kombdi",
   jstr "nustem",
   jstr "rend",
   jstr "sim",
   jstr "hako",
   jstr "merom",
   jstr "yen",
   jstr "nga",
   jstr "shan",
   jstr "dao",
   jstr "na",
   jstr "mosou",
   jstr "murga",
   jstr "machhi",
   jstr "bakra"]

/-- Source lines 1970-2016 of the `IntentClassifier` constructor. -/
def cookingList : List Str :=
  [jstr "oil",
   jstr "sugar",
   jstr "salt",
   jstr "tel",
   jstr "cheeni",
   jstr "namak",
   jstr "enne",
   jstr "sakkare",
   jstr "uppu",
   jstr "ennai",
   jstr "sakkarai",
   jstr "uppu",
   jstr "nune",
   jstr "bellam",
   jstr "uppu",
   jstr "tel",
   jstr "chini",
   jstr "noon",
   jstr "tel",
   jstr "sakhar",
   jstr "mith",
   jstr "tel",
   jstr "khand",
   jstr "mithu",
   jstr "tel",
   jstr "cheeni",
   jstr "namak",
   jstr "tela",
   jstr "chini",
   jstr "laban",
   jstr "enna",
   jstr "sarkara",
   jstr "uppu",
   jstr "tel",
   jstr "cheni",
   jstr "noon",
   jstr "tel",
   jstr "cheeni",
   jstr "namak",
   jstr "tel",
   jstr "khando",
   jstr "mitho",
   jstr "tel",
   jstr "khand",
   jstr "noon",
   jstr "tel",
   jstr "chini",
   jstr "noon",
   jstr "tel",
   jstr "chini",
   jstr "noon",
   jstr "tel",
   jstr "chini",
   jstr "noon",
   jstr "tel",
   jstr "khand",
   jstr "noon",
   jstr "tel",
   jstr "sakhar",
   jstr "mith",
   jstr "tel",
   jstr "chini",
   jstr "noon",
   jstr "thao",
   jstr "chini",
   jstr "thum",
   jstr "tel",
   jstr "chini",
   jstr "khaar",
   jstr "tel",
   jstr "cheeni",
   jstr "namak"]

/-- The `bargaining` entry of `this.intentPatterns`. -/
def bargainingPattern : Pattern :=
  { keywords := bargainingKeywords, phrases := bargainingPhrases }

/-- The `bulk_purchase` entry of `this.intentPatterns`. -/
def bulkPattern : Pattern :=
  { keywords := bulkKeywords, phrases := bulkPhrases }

/-- The `casual_inquiry` entry of `this.intentPatterns`. -/
def casualPattern : Pattern :=
  { keywords := casualKeywords, phrases := casualPhrases }

/-- `this.intentPatterns` as an association list in declaration order. -/
def intentPatterns : List (Str × Pattern) :=
  [(jstr "bargaining", bargainingPattern),
   (jstr "bulk_purchase", bulkPattern),
   (jstr "casual_inquiry", casualPattern)]

/-- `this.productPatterns` (source lines 1723-2018) in declaration order. -/
def productPatterns : List (Str × List Str) :=
  [(jstr "grains", grainsList),
   (jstr "vegetables", vegetablesList),
   (jstr "fruits", fruitsList),
   (jstr "dairy", dairyList),
   (jstr "meat", meatList),
   (jstr "cooking", cookingList)]

/-- `normalizeText` (source lines 2083-2088): lowercase, punctuation to
spaces, whitespace collapsed, trimmed. -/
def normalizeText (text : Str) : Str :=
  jsTrim (collapseWs ((text.map Char.toLower).map
    (fun c => if !(isWordJS c || isWsJS c) then ' ' else c)))

/-- The keyword/phrase part of `calculateIntentScores` for one pattern
(source lines 2098-2114): +1 per keyword entry found in the text, +2 per
phrase entry found in the text. -/
def scorePattern (p : Pattern) (text : Str) : Nat :=
  p.phrases.foldl (fun acc ph => if jsIncludes text ph then acc + 2 else acc)
    (p.keywords.foldl (fun acc k => if jsIncludes text k then acc + 1 else acc) 0)

/-- The raw keyword/phrase scores for the three intents, before the
contextual rules. -/
def baseScores (text : Str) : Scores :=
  { bargaining := scorePattern bargainingPattern text
    bulk_purchase := scorePattern bulkPattern text
    casual_inquiry := scorePattern casualPattern text }

/-- The unit alternatives of contextual rule 1's regex. -/
def rule1Units : List Str :=
  [jstr "kg", jstr "kilo", jstr "liter", jstr "piece", jstr "dozen",
   jstr "box", jstr "bag"]

/-- Contextual rule 1's test (source line 2124): a digit run, optional
whitespace, then one of the units. -/
def testNumUnit (text : Str) : Bool :=
  text.tails.any (fun t =>
    match t with
    | [] => false
    | c :: _ =>
      c.isDigit &&
        rule1Units.any (fun u =>
          ciPrefixOf u ((t.dropWhile Char.isDigit).dropWhile isWsJS)))

/-- The word alternatives of contextual rule 2 (price words). -/
def rule2Words : List Str :=
  [jstr "price", jstr "cost", jstr "rate", jstr "rupee", jstr "rs", jstr "₹"]

/-- The word alternatives of contextual rule 3 (question words). -/
def rule3Words : List Str :=
  [jstr "what", jstr "which", jstr "where", jstr "when", jstr "how",
   jstr "do you", jstr "is it", jstr "are you"]

/-- The word alternatives of contextual rule 4 (comparison words). -/
def rule4Words : List Str :=
  [jstr "expensive", jstr "cheap", jstr "more", jstr "less", jstr "better",
   jstr "worse", jstr "compare"]

/-- The word alternatives of contextual rule 5 (availability words). -/
def rule5Words : List Str :=
  [jstr "available", jstr "have", jstr "sell", jstr "stock", jstr "fresh",
   jstr "quality"]

/-- `applyContextualRules` (source lines 2122-2147). -/
def applyContextualRules (text : Str) (s : Scores) : Scores :=
  let s := if testNumUnit text then { s with bulk_purchase := s.bulk_purchase + 3 } else s
  let s := if testWords rule2Words text then { s with bargaining := s.bargaining + 2 } else s
  let s := if testWords rule3Words text then { s with casual_inquiry := s.casual_inquiry + 1 } else s
  let s := if testWords rule4Words text then { s with bargaining := s.bargaining + 2 } else s
  if testWords rule5Words text then { s with casual_inquiry := s.casual_inquiry + 2 } else s

/-- `calculateIntentScores` (source lines 2090-2120). -/
def calculateIntentScores (text : Str) : Scores :=
  applyContextualRules text (baseScores text)

/-- `selectPrimaryIntent` (source lines 2149-2158): default to
`casual_inquiry` on an all-zero score, otherwise the first key (in
declaration order) whose score equals the maximum; `none` models the
`undefined` that `find` would return if no key matched. -/
def selectPrimaryIntent (s : Scores) : Option Str :=
  let m := max s.bargaining (max s.bulk_purchase s.casual_inquiry)
  if m = 0 then some (jstr "casual_inquiry")
  else if s.bargaining = m then some (jstr "bargaining")
  else if s.bulk_purchase = m then some (jstr "bulk_purchase")
  else if s.casual_inquiry = m then some (jstr "casual_inquiry")
  else none

/-- The verb alternatives of `extractProduct`'s fallback regex. -/
def prodVerbs : List Str :=
  [jstr "buy", jstr "sell", jstr "price of", jstr "cost of", jstr "rate of"]

/-- The scan of `/\b(buy|sell|price of|cost of|rate of)\s+(\w+)/i`: at the
first position with a word boundary where a verb, whitespace and a word
follow, return that word (the second capture group). Every verb starts with
a letter, so the boundary holds exactly when the previous character is not
a word character. -/
def prepAux (prev : Option Char) : Str → Option Str
  | [] => none
  | c :: rest =>
    (if !isWordOpt prev then
      prodVerbs.findSome? (fun v =>
        if ciPrefixOf v (c :: rest) then
          let afterVerb := (c :: rest).drop v.length
          let ws := afterVerb.takeWhile isWsJS
          if ws ≠ [] then
            let word := (afterVerb.drop ws.length).takeWhile isWordJS
            if word ≠ [] then some word else none
          else none
        else none)
    else none).orElse (fun _ => prepAux (some c) rest)

/-- `extractProduct` (source lines 2160-2177): first product term (category
order, then list order) contained in the text, else the
verb-plus-word fallback pattern. -/
def extractProduct (text : Str) : Option Str :=
  match productPatterns.findSome? (fun cat => cat.2.find? (fun p => jsIncludes text p)) with
  | some p => some p
  | none => prepAux none text

/-- `getProductCategory` (source lines 2179-2189). -/
def getProductCategory (product : Option Str) : Option Str :=
  match product with
  | none => none
  | some p =>
    match productPatterns.find? (fun cat => cat.2.contains p) with
    | some cat => some cat.1
    | none => some (jstr "general")

/-- The unit alternatives of the seven `quantityPatterns` regexes (source
lines 2021-2029), in order. -/
def quantityUnits : List (List Str) :=
  [[jstr "kg", jstr "kilo", jstr "kilogram"],
   [jstr "g", jstr "gram", jstr "grams"],
   [jstr "l", jstr "liter", jstr "litre"],
   [jstr "piece", jstr "pieces", jstr "pc"],
   [jstr "dozen", jstr "doz"],
   [jstr "box", jstr "boxes"],
   [jstr "bag", jstr "bags", jstr "sack"]]

/-- `parseInt` on a digit run. -/
def parseDigits (digits : Str) : Nat :=
  digits.foldl (fun n c => n * 10 + (c.toNat - 48)) 0

/-- Leftmost match of one `/(\d+)\s*(u1|u2|...)/i` pattern: digits, optional
whitespace, then the first alternative that fits. -/
def matchQtyAux (units : List Str) : Str → Option QuantityInfo
  | [] => none
  | c :: rest =>
    if c.isDigit then
      let digits := (c :: rest).takeWhile Char.isDigit
      let after := ((c :: rest).drop digits.length).dropWhile isWsJS
      match units.find? (fun u => ciPrefixOf u after) with
      | some u => some { amount := parseDigits digits, unit := u.map Char.toLower }
      | none => matchQtyAux units rest
    else matchQtyAux units rest

/-- `extractQuantity` (source lines 2191-2203): the first pattern (in list
order) that matches anywhere wins. -/
def extractQuantity (text : Str) : Option QuantityInfo :=
  quantityUnits.findSome? (fun units => matchQtyAux units text)

/-- `extractKeywords` (source lines 2205-2226): matching keywords, then
matching phrases, limited to the first five. -/
def extractKeywords (text : Str) (intent : Option Str) : List Str :=
  match intent.bind (fun i => intentPatterns.lookup i) with
  | none => []
  | some pat =>
    ((pat.keywords.filter (fun k => jsIncludes text k)) ++
      (pat.phrases.filter (fun ph => jsIncludes text ph))).take 5

/-- `calculateConfidence` (source lines 2228-2248). -/
def calculateConfidence (s : Scores) (keywords : List Str) (product : Option Str) : ℚ :=
  let m := max s.bargaining (max s.bulk_purchase s.casual_inquiry)
  let total := s.bargaining + s.bulk_purchase + s.casual_inquiry
  let conf : ℚ :=
    if 0 < m then
      3 / 10 + ((m : ℚ) / max (total : ℚ) 1) * (4 / 10)
        + min ((keywords.length : ℚ) * (1 / 10)) (2 / 10)
        + (match product with
           | some p => if p ≠ [] ∧ p ≠ jstr "unknown" then 1 / 10 else 0
           | none => 0)
    else 3 / 10
  min conf (95 / 100)

/-- `classifyIntent` (source lines 2032-2081); the catch-all fallback branch
is unreachable in the model, every stage being total. -/
def classifyIntent (text : Str) (language : Str) : ClassifiedIntent :=
  let normalizedText := normalizeText text
  let product := extractProduct normalizedText
  let quantity := extractQuantity normalizedText
  let category := getProductCategory product
  let intentScores := calculateIntentScores normalizedText
  let primaryIntent := selectPrimaryIntent intentScores
  let keywords := extractKeywords normalizedText primaryIntent
  let confidence := calculateConfidence intentScores keywords product
  { type := primaryIntent
    confidence := confidence
    keywords := keywords
    product := orStr product (jstr "unknown")
    category := orStr category (jstr "general")
    quantity := quantity
    language := language
    originalText := text
    normalizedText := normalizedText
    scores := intentScores }

/-- The tokens of the normalized text, as the claim's words use them. -/
def tokensOf (text : Str) : List Str := splitSep (jstr " ") text

/-- The raw score exactly as claim C6's words describe it (this definition
follows the specification, not the source, and is compared against
`scorePattern`): +1 per token matching any keyword by substring containment
in either direction, +2 per phrase found in the text. -/
def claimRawScore (p : Pattern) (text : Str) : Nat :=
  (tokensOf text).countP
    (fun tok => p.keywords.any (fun k => jsIncludes tok k || jsIncludes k tok))
  + 2 * p.phrases.countP (fun ph => jsIncludes text ph)

end IntentClassifier

namespace TranslationEngine

/-- One segment of the pattern generated from a template: a literal character,
or the word matcher the source substitutes for a placeholder. -/
inductive Seg where
  | lit (c : Char)
  | word
deriving Repr, DecidableEq

/-- `createPatternFromTemplate` (source lines 2442-2447): escape the template
and turn every placeholder into a one-or-more word-character matcher.
`skip` counts the characters of the current placeholder still to be
consumed. -/
def parseTmplAux : Nat → Str → List Seg
  | _, [] => []
  | n + 1, _ :: rest => parseTmplAux n rest
  | 0, c :: rest =>
    if c = '{' ∧ (rest.takeWhile (fun x => x ≠ '}')) ≠ [] ∧
        rest.drop (rest.takeWhile (fun x => x ≠ '}')).length ≠ [] then
      Seg.word :: parseTmplAux ((rest.takeWhile (fun x => x ≠ '}')).length + 1) rest
    else Seg.lit c :: parseTmplAux 0 rest

/-- The segment list of `createPatternFromTemplate`'s generated pattern. -/
def parseTmpl (template : Str) : List Seg := parseTmplAux 0 template

/-- Matching a segment list at the head of the text. `Seg.word` consumes one
word character and then either ends or keeps consuming, existence semantics
of the backtracking regex engine; comparisons are caseless (`i` flag). -/
def matchSegs : List Seg → Str → Bool
  | [], _ => true
  | Seg.lit c :: segs, s =>
    match s with
    | [] => false
    | x :: rest => (c.toLower == x.toLower) && matchSegs segs rest
  | Seg.word :: segs, s =>
    match s with
    | [] => false
    | x :: rest => isWordJS x && (matchSegs segs rest || matchSegs (Seg.word :: segs) rest)

/-- Unanchored `text.match(pattern)` as a Boolean test. -/
def tmplTest (template text : Str) : Bool :=
  text.tails.any (fun t => matchSegs (parseTmpl template) t)

/-- `this.tradePhrasesTemplates` (source lines 2264-2349): per language, per
phrase category, the template strings. -/
def tradePhrasesTemplates : List (Str × List (Str × List Str)) :=
  [(jstr "english",
    [(jstr "price_inquiry",
      [jstr "What is the price of {product}?",
       jstr "How much does {product} cost?",
       jstr "What is the rate for {product}?"]),
     (jstr "bargaining",
      [jstr "Can you reduce the price of {product}?",
       jstr "This is too expensive for {product}.",
       jstr "What is your best price for {product}?",
       jstr "Can you give a discount on {product}?"]),
     (jstr "bulk_purchase",
      [jstr "What is the wholesale price for {product}?",
       jstr "I want to buy {quantity} {product}.",
       jstr "Do you give bulk discount for {product}?"]),
     (jstr "acceptance",
      [jstr "I will take {product} at this price.",
       jstr "This price is acceptable for {product}.",
       jstr "Okay, I agree to buy {product}."]),
     (jstr "rejection",
      [jstr "This price is too high for {product}.",
       jstr "I cannot afford {product} at this rate.",
       jstr "Sorry, this is beyond my budget for {product}."])]),
   (jstr "hindi",
    [(jstr "price_inquiry",
      [jstr "{product} ka daam kya hai?",
       jstr "{product} kitne mein milega?",
       jstr "{product} ka rate kya hai?"]),
     (jstr "bargaining",
      [jstr "{product} ka daam kam kar sakte hain?",
       jstr "Yeh {product} bahut mehenga hai.",
       jstr "{product} ka best price kya hai?",
       jstr "{product} mein discount mil sakta hai?"]),
     (jstr "bulk_purchase",
      [jstr "{product} ka wholesale rate kya hai?",
       jstr "Mujhe {quantity} {product} chahiye.",
       jstr "{product} mein bulk discount milega?"]),
     (jstr "acceptance",
      [jstr "Main {product} is daam mein le lunga.",
       jstr "{product} ka yeh daam theek hai.",
       jstr "Accha, main {product} kharid lunga."]),
     (jstr "rejection",
      [jstr "{product} ka daam bahut zyada hai.",
       jstr "Main {product} itne mein nahi le sakta.",
       jstr "Maaf kijiye, {product} mere budget se zyada hai."])]),
   (jstr "kannada",
    [(jstr "price_inquiry",
      [jstr "{product} bele eshtu?",
       jstr "{product} eshtu duddu?",
       jstr "{product} rate enu?"]),
     (jstr "bargaining",
      [jstr "{product} bele kammi maadtira?",
       jstr "Ee {product} tumba jaasti.",
       jstr "{product} best price enu?",
       jstr "{product} nalli discount sigutta?"]),
     (jstr "bulk_purchase",
      [jstr "{product} wholesale rate enu?",
       jstr "Nanage {quantity} {product} beku.",
       jstr "{product} nalli bulk discount sigutta?"]),
     (jstr "acceptance",
      [jstr "Naanu {product} ee bele nalli tagoltini.",
       jstr "{product} ee bele olledu.",
       jstr "Sari, naanu {product} kondukolteeni."]),
     (jstr "rejection",
      [jstr "{product} bele tumba jaasti.",
       jstr "Naanu {product} eshtu duddu nalli tagolla sakilla.",
       jstr "Kshamissi, {product} nanna budget gintha jaasti."])])]

/-- `this.commonTranslations` (source lines 2352-2371). -/
def commonTranslations : List (Str × List (Str × Str)) :=
  [(jstr "english_to_hindi",
    [(jstr "price", jstr "daam"), (jstr "cost", jstr "kimat"),
     (jstr "expensive", jstr "mehenga"), (jstr "cheap", jstr "sasta"),
     (jstr "discount", jstr "chhoot"), (jstr "quality", jstr "gunvatta"),
     (jstr "fresh", jstr "taaza"), (jstr "good", jstr "accha"),
     (jstr "kg", jstr "kilo"), (jstr "liter", jstr "litre"),
     (jstr "piece", jstr "tukda"), (jstr "dozen", jstr "darjan")]),
   (jstr "english_to_kannada",
    [(jstr "price", jstr "bele"), (jstr "cost", jstr "duddu"),
     (jstr "expensive", jstr "jaasti"), (jstr "cheap", jstr "kammi"),
     (jstr "discount", jstr "discount"), (jstr "quality", jstr "gunvatta"),
     (jstr "fresh", jstr "hosa"), (jstr "good", jstr "chennaagide"),
     (jstr "kg", jstr "kilo"), (jstr "liter", jstr "litre"),
     (jstr "piece", jstr "piece"), (jstr "dozen", jstr "dozen")]),
   (jstr "hindi_to_english",
    [(jstr "daam", jstr "price"), (jstr "kimat", jstr "cost"),
     (jstr "mehenga", jstr "expensive"), (jstr "sasta", jstr "cheap"),
     (jstr "chhoot", jstr "discount"), (jstr "accha", jstr "good"),
     (jstr "taaza", jstr "fresh"), (jstr "kilo", jstr "kg")]),
   (jstr "kannada_to_english",
    [(jstr "bele", jstr "price"), (jstr "duddu", jstr "cost"),
     (jstr "jaasti", jstr "expensive"), (jstr "kammi", jstr "cheap"),
     (jstr "chennaagide", jstr "good"), (jstr "hosa", jstr "fresh"),
     (jstr "kilo", jstr "kg")])]

/-- `this.tonePatterns` (source lines 2374-2379). -/
def tonePatterns : List (Str × List Str) :=
  [(jstr "polite",
    [jstr "please", jstr "kindly", jstr "if possible", jstr "kripaya", jstr "dayavittu"]),
   (jstr "urgent",
    [jstr "quickly", jstr "fast", jstr "immediately", jstr "jaldi", jstr "bega"]),
   (jstr "respectful",
    [jstr "sir", jstr "madam", jstr "sahab", jstr "amma", jstr "ayya"]),
   (jstr "friendly",
    [jstr "brother", jstr "sister", jstr "bhai", jstr "didi", jstr "anna", jstr "akka"])]

/-- The `toneMarkers` table of `addToneMarkers` (source lines 2504-2523). -/
def toneMarkers : List (Str × List (Str × Str)) :=
  [(jstr "english",
    [(jstr "polite", jstr "please "), (jstr "urgent", jstr "quickly "),
     (jstr "respectful", jstr "sir/madam "), (jstr "friendly", jstr "friend ")]),
   (jstr "hindi",
    [(jstr "polite", jstr "kripaya "), (jstr "urgent", jstr "jaldi "),
     (jstr "respectful", jstr "sahab "), (jstr "friendly", jstr "bhai ")]),
   (jstr "kannada",
    [(jstr "polite", jstr "dayavittu "), (jstr "urgent", jstr "bega "),
     (jstr "respectful", jstr "ayya "), (jstr "friendly", jstr "anna ")])]

/-- `normalizeLanguageCode` (source lines 2533-2544). -/
def normalizeLanguageCode (language : Str) : Str :=
  let langMap : List (Str × Str) :=
    [(jstr "en-US", jstr "english"), (jstr "hi-IN", jstr "hindi"),
     (jstr "kn-IN", jstr "kannada"), (jstr "english", jstr "english"),
     (jstr "hindi", jstr "hindi"), (jstr "kannada", jstr "kannada")]
  (langMap.lookup language).getD (jstr "english")

/-- `TranslationEngine.fillTemplate` (source lines 2449-2466): substitute the
product and quantity into the target template, then delete unfilled
placeholders and trim. -/
def fillTemplateTE (template : Str) (it : IntentClassifier.ClassifiedIntent) : Str :=
  let f1 :=
    if it.product ≠ [] ∧ it.product ≠ jstr "unknown" then
      jsReplaceAll (jstr "{product}") it.product template
    else template
  let f2 :=
    match it.quantity with
    | some q => jsReplaceAll (jstr "{quantity}") (natToStr q.amount ++ [' '] ++ q.unit) f1
    | none => f1
  jsTrim (stripPh f2)

/-- `translateUsingTemplates` (source lines 2413-2440): when an intent hint is
supplied and some source-language template for its category matches the text,
fill the target language's first template of that category. -/
def translateUsingTemplates (text : Str) (fromLang toLang : Str)
    (intent : Option IntentClassifier.ClassifiedIntent) : Option Str :=
  match intent with
  | none => none
  | some it =>
    let normalizedText := jsTrim (text.map Char.toLower)
    match tradePhrasesTemplates.lookup fromLang with
    | none => none
    | some templates =>
      let intentTemplates :=
        match it.type.bind (fun ty => templates.lookup ty) with
        | some l => l
        | none => (templates.lookup (jstr "price_inquiry")).getD []
      if intentTemplates.any (fun t => tmplTest t normalizedText) then
        match tradePhrasesTemplates.lookup toLang with
        | some targetTemplates =>
          match it.type.bind (fun ty => targetTemplates.lookup ty) with
          | some (t0 :: _) => some (fillTemplateTE t0 it)
          | some [] => none
          | none => none
        | none => none
      else none

/-- The scan of `replace(/\bword\b/gi, rep)`: case-insensitive match with
word boundaries on both sides, continuing after each replacement. `prev` is
the character before the current position in the original text; `skip`
counts the characters of the current match still to be consumed. -/
def replaceWordAux (pat rep : Str) : Nat → Option Char → Str → Str
  | _, _, [] => []
  | n + 1, _, x :: rest => replaceWordAux pat rep n (some x) rest
  | 0, prev, c :: rest =>
    if pat ≠ [] ∧ ciPrefixOf pat (c :: rest) ∧
        wordBoundary prev (some c) ∧
        wordBoundary ((c :: rest).take pat.length).getLast?
          ((c :: rest).drop pat.length).head? = true then
      rep ++ replaceWordAux pat rep (pat.length - 1) (some c) rest
    else c :: replaceWordAux pat rep 0 (some c) rest

/-- `translateWords` (source lines 2468-2485): pass the text through when no
dictionary exists for the language pair, otherwise lowercase it and replace
every known word. -/
def translateWords (text : Str) (fromLang toLang : Str) : Str :=
  match commonTranslations.lookup (fromLang ++ jstr "_to_" ++ toLang) with
  | none => text
  | some dict =>
    dict.foldl (fun t kv => replaceWordAux kv.1 kv.2 0 none t) (text.map Char.toLower)

/-- `addToneMarkers` (source lines 2503-2531). -/
def addToneMarkers (text : Str) (tone language : Str) : Str :=
  match (toneMarkers.lookup language).bind (fun m => m.lookup tone) with
  | some marker =>
    if !(jsIncludes text (jsTrim marker)) then marker ++ text else text
  | none => text

/-- `preserveNegotiationTone` (source lines 2487-2501). -/
def preserveNegotiationTone (translated original : Str) (targetLanguage : Str) : Str :=
  tonePatterns.foldl
    (fun t tonePats =>
      tonePats.2.foldl
        (fun t' p =>
          if jsIncludes (original.map Char.toLower) p then
            addToneMarkers t' tonePats.1 targetLanguage
          else t')
        t)
    translated

/-- `translate` (source lines 2382-2411): identity on an identical language
tag; otherwise the template path, then the word-substitution path with tone
preservation, falling back to the original text when the result is empty. -/
def translate (text : Str) (fromLanguage toLanguage : Str)
    (intent : Option IntentClassifier.ClassifiedIntent) : Str :=
  if fromLanguage = toLanguage then text
  else
    let fromLang := normalizeLanguageCode fromLanguage
    let toLang := normalizeLanguageCode toLanguage
    let wordPath :=
      let wordTranslation := translateWords text fromLang toLang
      let tonePreserved := preserveNegotiationTone wordTranslation text toLang
      if tonePreserved = [] then text else tonePreserved
    match translateUsingTemplates text fromLang toLang intent with
    | some t => if t = [] then wordPath else t
    | none => wordPath

end TranslationEngine

namespace NegotiationAssistant

/-- One entry of `this.culturalPatterns` (source lines 3151-3167). -/
structure CulturalStyle where
  tone : Str
  phrases : List Str
  declineStyle : Str
deriving Repr, DecidableEq

/-- `this.culturalPatterns`: the negotiation assistant's shared cultural
tables, the mutable state `getCulturalContext` aliases. -/
structure CulturalPatterns where
  respectful : CulturalStyle
  friendly : CulturalStyle
  professional : CulturalStyle
deriving Repr, DecidableEq

/-- The cultural tables as the constructor initialises them. -/
def initialCulturalPatterns : CulturalPatterns :=
  { respectful :=
      { tone := jstr "polite"
        phrases :=
          [jstr "I appreciate your interest", jstr "Thank you for considering",
           jstr "I understand your position"]
        declineStyle := jstr "gentle" }
    friendly :=
      { tone := jstr "warm"
        phrases :=
          [jstr "Let me help you", jstr "We can work something out",
           jstr "I want to find a good deal for you"]
        declineStyle := jstr "understanding" }
    professional :=
      { tone := jstr "business"
        phrases :=
          [jstr "This is a fair price", jstr "Based on market rates",
           jstr "Quality justifies the cost"]
        declineStyle := jstr "firm_but_polite" } }

/-- The record `getCulturalContext` returns. -/
structure CulturalContext where
  approach : Str
  tone : Str
  phrases : List Str
  declineStyle : Str
  customary : List Str
deriving Repr, DecidableEq

/-- `getCulturalContext` (source lines 3529-3567), with the state passed
explicitly. In the source, `culturalContext.phrases` is a reference to
`this.culturalPatterns.respectful.phrases` (line 3534), so the
`culturalContext.phrases.push(...)` in every branch of the switch appends to
the shared table; the returned pair carries the context and the table state
after the call. -/
def getCulturalContext (pats : CulturalPatterns)
    (intent : IntentClassifier.ClassifiedIntent) : CulturalContext × CulturalPatterns :=
  let baseCustomary :=
    [jstr "Allow time for customer consideration",
     jstr "Maintain respectful dialogue",
     jstr "Avoid aggressive pressure tactics"]
  if intent.type = some (jstr "bargaining") then
    let phrases := pats.respectful.phrases ++ [jstr "This is a fair starting price"]
    ({ approach := jstr "respectful"
       tone := jstr "polite"
       phrases := phrases
       declineStyle := pats.respectful.declineStyle
       customary := baseCustomary ++
         [jstr "Bargaining is expected and normal",
          jstr "Start higher to allow negotiation room"] },
     { pats with respectful := { pats.respectful with phrases := phrases } })
  else if intent.type = some (jstr "bulk_purchase") then
    let phrases := pats.respectful.phrases ++ [jstr "For bulk orders, I can offer better rates"]
    ({ approach := jstr "business_friendly"
       tone := jstr "polite"
       phrases := phrases
       declineStyle := pats.respectful.declineStyle
       customary := baseCustomary ++
         [jstr "Volume buyers deserve special consideration",
          jstr "Build long-term business relationships"] },
     { pats with respectful := { pats.respectful with phrases := phrases } })
  else if intent.type = some (jstr "casual_inquiry") then
    let phrases := pats.respectful.phrases ++ [jstr "Let me explain our pricing clearly"]
    ({ approach := jstr "informational"
       tone := jstr "polite"
       phrases := phrases
       declineStyle := pats.respectful.declineStyle
       customary := baseCustomary ++
         [jstr "Provide clear, honest information",
          jstr "No pressure to buy immediately"] },
     { pats with respectful := { pats.respectful with phrases := phrases } })
  else
    ({ approach := jstr "respectful"
       tone := jstr "polite"
       phrases := pats.respectful.phrases
       declineStyle := pats.respectful.declineStyle
       customary := baseCustomary },
     pats)

/-- The price-range block the guidance engine reads
(`priceData.ranges`, as `generatePriceRange` produces it). -/
structure PriceRanges where
  minimum : ℤ
  safe : ℤ
  market : ℤ
  premium : ℤ
  recommended : ℤ
deriving Repr, DecidableEq

/-- The price data the guidance engine consumes: the ranges and the
negotiation flexibility (`priceData.negotiation.flexibility`). -/
structure GuidancePriceData where
  ranges : PriceRanges
  flexibility : Str
deriving Repr, DecidableEq

/-- The record `analyzeCustomerBehavior` returns. -/
structure CustomerAnalysis where
  priceAwareness : Str
  urgency : Str
  flexibility : Str
  signals : List Str
deriving Repr, DecidableEq

/-- `analyzeCustomerBehavior` (source lines 3224-3268). -/
def analyzeCustomerBehavior (text : Str)
    (intent : IntentClassifier.ClassifiedIntent) : CustomerAnalysis :=
  let lowerText := text.map Char.toLower
  let has := fun (w : Str) => jsIncludes lowerText w
  let a0 : CustomerAnalysis :=
    { priceAwareness := jstr "unknown", urgency := jstr "normal"
      flexibility := jstr "moderate", signals := [] }
  let a1 :=
    if has (jstr "expensive") || has (jstr "costly") || has (jstr "mehenga") then
      { a0 with priceAwareness := jstr "high", signals := a0.signals ++ [jstr "price_sensitive"] }
    else if has (jstr "fair") || has (jstr "reasonable") || has (jstr "accha") then
      { a0 with priceAwareness := jstr "moderate", signals := a0.signals ++ [jstr "price_conscious"] }
    else a0
  let a2 :=
    if has (jstr "quickly") || has (jstr "urgent") || has (jstr "jaldi") then
      { a1 with urgency := jstr "high", signals := a1.signals ++ [jstr "time_pressure"] }
    else if has (jstr "thinking") || has (jstr "consider") || has (jstr "sochna") then
      { a1 with urgency := jstr "low", signals := a1.signals ++ [jstr "deliberating"] }
    else a1
  let a3 :=
    if has (jstr "budget") || has (jstr "afford") || has (jstr "paisa") then
      { a2 with flexibility := jstr "low", signals := a2.signals ++ [jstr "budget_constrained"] }
    else if has (jstr "quality") || has (jstr "best") || has (jstr "accha") then
      { a2 with flexibility := jstr "high", signals := a2.signals ++ [jstr "quality_focused"] }
    else a2
  match intent.quantity with
  | some q =>
    if 5 < q.amount then
      { a3 with signals := a3.signals ++ [jstr "bulk_buyer"], flexibility := jstr "high" }
    else a3
  | none => a3

/-- One counter-offer. `price` is `none` for the fallback placeholder offer;
`discount` is absent (`none`) there too. -/
structure CounterOffer where
  level : Str
  price : Option ℤ
  discount : Option ℤ
  message : Str
  reasoning : List Str
  recommended : Bool
deriving Repr, DecidableEq

/-- `this.counterOfferRules` (source lines 3170-3183): level, reduction,
message. -/
def counterOfferRules : List (Str × ℚ × Str) :=
  [(jstr "first_offer", 5 / 100, jstr "Let me see what I can do for you"),
   (jstr "second_offer", 8 / 100, jstr "This is getting close to my best price"),
   (jstr "final_offer", 12 / 100, jstr "This is my final offer")]

/-- `generateOfferReasoning` (source lines 3305-3332). -/
def generateOfferReasoning (level : Str) (price : ℤ)
    (pd : GuidancePriceData) : List Str :=
  let base :=
    if level = jstr "first_offer" then
      [jstr "Good starting point for negotiation",
       jstr "Shows willingness to work with customer"]
    else if level = jstr "second_offer" then
      [jstr "Demonstrates flexibility while maintaining margin",
       jstr "Builds customer confidence in the deal"]
    else if level = jstr "final_offer" then
      [jstr "Near minimum acceptable price",
       jstr "Clear signal that negotiation is ending"]
    else []
  base ++
    [if pd.ranges.market < price then jstr "Still above market average"
     else if price = pd.ranges.market then jstr "At fair market price"
     else jstr "Below market price - good customer deal"]

/-- `generateCounterOffers` (source lines 3270-3303): start from the
recommended price (or the market price when the customer shows high price
awareness), apply the three fixed reductions, clamp at the safe floor and
mark only the first offer recommended. -/
def generateCounterOffers (pd : GuidancePriceData)
    (_intent : IntentClassifier.ClassifiedIntent)
    (customerAnalysis : CustomerAnalysis) : List CounterOffer :=
  let startingPrice :=
    if customerAnalysis.priceAwareness = jstr "high" then pd.ranges.market
    else pd.ranges.recommended
  (counterOfferRules.enum.map (fun rule =>
    let discountedPrice := jsRound ((startingPrice : ℚ) * (1 - rule.2.2.1))
    let finalPrice := max discountedPrice pd.ranges.safe
    { level := rule.2.1
      price := some finalPrice
      discount := some (jsRound ((((startingPrice : ℚ) - (finalPrice : ℚ)) / (startingPrice : ℚ)) * 100))
      message := rule.2.2.2
      reasoning := generateOfferReasoning rule.2.1 finalPrice pd
      recommended := rule.1 = 0 }))

/-- The single placeholder counter-offer of `generateFallbackGuidance`
(source lines 3787-3793). -/
def fallbackCounterOffers : List CounterOffer :=
  [{ level := jstr "standard"
     price := none
     discount := none
     message := jstr "Let me check the current market price for you"
     reasoning := [jstr "Price data not available"]
     recommended := true }]

/-- The counter-offer part of `generateGuidance` (source lines 3186-3222):
without price data the fallback placeholder list, otherwise the offers
computed from the price data and the customer-behaviour analysis of the
original text. -/
def guideCounterOffers (intent : IntentClassifier.ClassifiedIntent)
    (priceData : Option GuidancePriceData) (originalText : Str) : List CounterOffer :=
  match priceData with
  | none => fallbackCounterOffers
  | some pd => generateCounterOffers pd intent (analyzeCustomerBehavior originalText intent)

end NegotiationAssistant

namespace PriceDiscoveryEngine

/-- Well-formedness of a loaded dataset: every product entry carries
positive, ordered prices, and every category entry carries an integral
average price of at least 1, a margin between 0 and one half, and a seasonal
variation between 0 and 1 (after the source's `||` defaults). The shipped
dataset file is not in the repository, so the price invariant is proved for
every dataset satisfying these bounds. -/
def WellFormedEngine (eng : PriceEngine) : Prop :=
  (∀ kv ∈ eng.priceData,
    1 ≤ kv.2.minPrice ∧ kv.2.minPrice ≤ kv.2.marketPrice ∧
      kv.2.marketPrice ≤ kv.2.maxPrice) ∧
  (∀ kv ∈ eng.categories,
    (orQ kv.2.averagePrice 50).den = 1 ∧ 1 ≤ orQ kv.2.averagePrice 50 ∧
      0 ≤ orQ kv.2.defaultMargin (15 / 100) ∧
      orQ kv.2.defaultMargin (15 / 100) ≤ 1 / 2 ∧
      0 ≤ orQ kv.2.seasonalVariation (1 / 10) ∧
      orQ kv.2.seasonalVariation (1 / 10) ≤ 1)

instance (eng : PriceEngine) : Decidable (WellFormedEngine eng) := by
  unfold WellFormedEngine
  infer_instance

/-- The effective seasonal variation `applyMarketVariations` uses for a
category parameter. -/
def effectiveSeasonalVariation (eng : PriceEngine) (category : Option Str) : ℚ :=
  orQ ((category.bind (fun c => eng.categories.lookup c)).bind
    (fun cd => cd.seasonalVariation)) (1 / 10)

end PriceDiscoveryEngine

/-- A concrete bargaining intent, used as input to the negotiation-engine
theorems (any record with `type = bargaining` serves). -/
def bargainIntentExample : IntentClassifier.ClassifiedIntent :=
  { type := some (jstr "bargaining")
    confidence := 3 / 10
    keywords := []
    product := jstr "unknown"
    category := jstr "general"
    quantity := none
    language := jstr "english"
    originalText := []
    normalizedText := []
    scores := { bargaining := 1, bulk_purchase := 0, casual_inquiry := 0 } }

/-- A concrete price-range block for the negotiation-engine theorems
(market 100, recommended start 110, safe floor 90, after
`calculateNegotiationRange` with the default discounts). -/
def guidancePdExample : NegotiationAssistant.GuidancePriceData :=
  { ranges := { minimum := 85, safe := 90, market := 100, premium := 110, recommended := 110 }
    flexibility := jstr "moderate" }

/-!
Theorems. Claims are numbered as in the specification's claim list; each
claim's theorem carries its identifier in the doc comment.
-/

set_option maxRecDepth 100000

namespace IntentClassifier

theorem extractKeywords_length_le (text : Str) (intent : Option Str) :
    (extractKeywords text intent).length ≤ 5 := by
  unfold extractKeywords
  split
  · simp
  · simp only [List.length_take]
    omega

theorem selectPrimaryIntent_isSome (s : Scores) :
    ∃ t, selectPrimaryIntent s = some t ∧
      (t = jstr "bargaining" ∨ t = jstr "bulk_purchase" ∨ t = jstr "casual_inquiry") := by
  simp only [selectPrimaryIntent]
  split_ifs with h0 h1 h2 h3
  · exact ⟨_, rfl, Or.inr (Or.inr rfl)⟩
  · exact ⟨_, rfl, Or.inl rfl⟩
  · exact ⟨_, rfl, Or.inr (Or.inl rfl)⟩
  · exact ⟨_, rfl, Or.inr (Or.inr rfl)⟩
  · exfalso
    omega

theorem calculateConfidence_bounds (s : Scores) (kws : List Str) (product : Option Str) :
    3 / 10 ≤ calculateConfidence s kws product ∧
      calculateConfidence s kws product ≤ 95 / 100 := by
  unfold calculateConfidence
  refine ⟨le_min ?_ (by norm_num), min_le_right _ _⟩
  split
  · have hA : (0 : ℚ) ≤ ((max s.bargaining (max s.bulk_purchase s.casual_inquiry) : ℕ) : ℚ) /
        max ((s.bargaining + s.bulk_purchase + s.casual_inquiry : ℕ) : ℚ) 1 * (4 / 10) := by
      apply mul_nonneg
      · apply div_nonneg (Nat.cast_nonneg _)
        exact le_trans zero_le_one (le_max_right _ _)
      · norm_num
    have hB : (0 : ℚ) ≤ min ((kws.length : ℚ) * (1 / 10)) (2 / 10) :=
      le_min (by positivity) (by norm_num)
    have hC : (0 : ℚ) ≤ (match product with
        | some p => if p ≠ [] ∧ p ≠ jstr "unknown" then (1 : ℚ) / 10 else 0
        | none => 0) := by
      rcases product with _ | p
      · simp
      · dsimp only
        split <;> norm_num
    linarith
  · exact le_refl _

end IntentClassifier

/-- Claim C10: the classifier truncates the matched-keywords list of the
winning intent to its first five entries, so every `ClassifiedIntent`
returned by `classifyIntent` carries at most 5 keywords. -/
theorem c10_keywords_at_most_five (text lang : Str) :
    (IntentClassifier.classifyIntent text lang).keywords.length ≤ 5 :=
  IntentClassifier.extractKeywords_length_le _ _

/-- Claim C5: for every text and language, `classifyIntent` returns an intent
whose type is one of the three enum values (never the `undefined` that
`find` could produce) and whose confidence lies in the interval from 0 to 1
(in fact between 0.3 and 0.95); every stage of the embedding is total, so no
exception path exists. -/
theorem c5_classifier_total (text lang : Str) :
    ∃ t, (IntentClassifier.classifyIntent text lang).type = some t ∧
      (t = jstr "bargaining" ∨ t = jstr "bulk_purchase" ∨ t = jstr "casual_inquiry") ∧
      0 ≤ (IntentClassifier.classifyIntent text lang).confidence ∧
      (IntentClassifier.classifyIntent text lang).confidence ≤ 1 := by
  obtain ⟨t, ht, henum⟩ :=
    IntentClassifier.selectPrimaryIntent_isSome
      (IntentClassifier.calculateIntentScores (IntentClassifier.normalizeText text))
  have hc :=
    IntentClassifier.calculateConfidence_bounds
      (IntentClassifier.calculateIntentScores (IntentClassifier.normalizeText text))
      (IntentClassifier.extractKeywords (IntentClassifier.normalizeText text)
        (IntentClassifier.selectPrimaryIntent
          (IntentClassifier.calculateIntentScores (IntentClassifier.normalizeText text))))
      (IntentClassifier.extractProduct (IntentClassifier.normalizeText text))
  have hconf : (IntentClassifier.classifyIntent text lang).confidence =
      IntentClassifier.calculateConfidence
        (IntentClassifier.calculateIntentScores (IntentClassifier.normalizeText text))
        (IntentClassifier.extractKeywords (IntentClassifier.normalizeText text)
          (IntentClassifier.selectPrimaryIntent
            (IntentClassifier.calculateIntentScores (IntentClassifier.normalizeText text))))
        (IntentClassifier.extractProduct (IntentClassifier.normalizeText text)) := rfl
  exact ⟨t, ht, henum, by rw [hconf]; linarith [hc.1], by rw [hconf]; linarith [hc.2]⟩

namespace IntentClassifier

theorem foldl_score_eq_countP (w : Nat) (q : Str → Bool) (l : List Str) (acc : Nat) :
    l.foldl (fun a x => if q x then a + w else a) acc = acc + w * l.countP q := by
  induction l generalizing acc with
  | nil => simp
  | cons x xs ih =>
    simp only [List.foldl_cons, List.countP_cons]
    cases hq : q x <;> simp [hq, ih, Nat.mul_add, Nat.mul_one] <;> omega

end IntentClassifier

/-- Claim C6 counterexample: for the normalized text "discount", the raw
bargaining score computed per the claim's words (+1 per token matching a
keyword by containment in either direction) is 1, while the source's scoring
(+1 per keyword-list entry contained in the text, duplicates counted) gives a
much larger value, so the two disagree. -/
theorem c6_counterexample :
    IntentClassifier.claimRawScore IntentClassifier.bargainingPattern (jstr "discount") ≠
      IntentClassifier.scorePattern IntentClassifier.bargainingPattern (jstr "discount") := by
  decide

/-- Claim C6 as amended: the raw score is +1 per keyword-list entry that
occurs as a substring of the whole normalized text (counted once per entry,
with the table's duplicate entries each counting) plus +2 per phrase entry
occurring in the text; and an all-zero score still selects
`casual_inquiry`. -/
theorem c6_amended (p : IntentClassifier.Pattern) (text : Str) :
    IntentClassifier.scorePattern p text =
      p.keywords.countP (fun k => jsIncludes text k) +
        2 * p.phrases.countP (fun ph => jsIncludes text ph) ∧
    ∀ s : IntentClassifier.Scores, s.bargaining = 0 → s.bulk_purchase = 0 →
      s.casual_inquiry = 0 →
      IntentClassifier.selectPrimaryIntent s = some (jstr "casual_inquiry") := by
  constructor
  · unfold IntentClassifier.scorePattern
    rw [IntentClassifier.foldl_score_eq_countP 1, IntentClassifier.foldl_score_eq_countP 2]
    simp
  · intro s h1 h2 h3
    simp [IntentClassifier.selectPrimaryIntent, h1, h2, h3]

/-- Claim C6 witness: the amended characterization applied at the concrete
text "discount" and the all-zero score record. -/
theorem c6_amended_witness :
    IntentClassifier.scorePattern IntentClassifier.bargainingPattern (jstr "discount") =
      IntentClassifier.bargainingPattern.keywords.countP
        (fun k => jsIncludes (jstr "discount") k) +
        2 * IntentClassifier.bargainingPattern.phrases.countP
          (fun ph => jsIncludes (jstr "discount") ph) ∧
    IntentClassifier.selectPrimaryIntent
      { bargaining := 0, bulk_purchase := 0, casual_inquiry := 0 } =
      some (jstr "casual_inquiry") :=
  ⟨(c6_amended IntentClassifier.bargainingPattern (jstr "discount")).1,
   (c6_amended IntentClassifier.bargainingPattern (jstr "discount")).2
     { bargaining := 0, bulk_purchase := 0, casual_inquiry := 0 } rfl rfl rfl⟩

/-- Claim C3 (evidence of the code bug): two successive calls of
`getCulturalContext` with a bargaining intent leave the shared
`culturalPatterns.respectful.phrases` table two entries longer than the
constructor's state — the source aliases the table into the returned context
and pushes onto it, so the strategy tables do not stay unchanged across
calls. -/
theorem c3_cultural_table_grows :
    (NegotiationAssistant.getCulturalContext
      (NegotiationAssistant.getCulturalContext
        NegotiationAssistant.initialCulturalPatterns bargainIntentExample).2
      bargainIntentExample).2.respectful.phrases =
    NegotiationAssistant.initialCulturalPatterns.respectful.phrases ++
      [jstr "This is a fair starting price", jstr "This is a fair starting price"] := by
  decide

/-- Claim C7 counterexample: on the input text "this is too expensive" the
engine computes the counter-offers from the market price, not from the
quote's recommended starting price, so the prices differ from the claim's
ladder (which would be 105, 101, 97 for recommended start 110 and safe floor
90). -/
theorem guideOffers_prices (pd : NegotiationAssistant.GuidancePriceData)
    (intent : IntentClassifier.ClassifiedIntent) (text : Str) :
    (NegotiationAssistant.guideCounterOffers intent (some pd) text).map (fun o => o.price) =
      (let sp :=
        if (NegotiationAssistant.analyzeCustomerBehavior text intent).priceAwareness =
            jstr "high" then
          pd.ranges.market
        else pd.ranges.recommended
      [some (max (jsRound ((sp : ℚ) * (1 - 5 / 100))) pd.ranges.safe),
       some (max (jsRound ((sp : ℚ) * (1 - 8 / 100))) pd.ranges.safe),
       some (max (jsRound ((sp : ℚ) * (1 - 12 / 100))) pd.ranges.safe)]) := rfl

theorem c7_counterexample :
    (NegotiationAssistant.guideCounterOffers bargainIntentExample (some guidancePdExample)
      (jstr "this is too expensive")).map (fun o => o.price) ≠
    [some (max (jsRound ((110 : ℚ) * (1 - 5 / 100))) 90),
     some (max (jsRound ((110 : ℚ) * (1 - 8 / 100))) 90),
     some (max (jsRound ((110 : ℚ) * (1 - 12 / 100))) 90)] := by
  have hpa : (NegotiationAssistant.analyzeCustomerBehavior (jstr "this is too expensive")
      bargainIntentExample).priceAwareness = jstr "high" := by decide
  have hL : (NegotiationAssistant.guideCounterOffers bargainIntentExample
      (some guidancePdExample) (jstr "this is too expensive")).map (fun o => o.price) =
      [some 95, some 92, some 90] := by
    rw [guideOffers_prices]
    simp only [hpa, if_pos, guidancePdExample]
    norm_num [jsRound, max_def]
  have hR : [some (max (jsRound ((110 : ℚ) * (1 - 5 / 100))) 90),
      some (max (jsRound ((110 : ℚ) * (1 - 8 / 100))) 90),
      some (max (jsRound ((110 : ℚ) * (1 - 12 / 100))) (90 : ℤ))] =
      [some 105, some 101, some 97] := by
    norm_num [jsRound, max_def]
  rw [hL, hR]
  decide

/-- Claim C7 as amended: with price data, `guide` produces exactly the three
offers `first_offer`, `second_offer`, `final_offer`, computed from the
starting price — the quote's recommended price, or the market price when the
text signals high price awareness — reduced by 5, 8 and 12 percent, each
clamped at the safe floor, with exactly the first offer recommended; with
`null` price data it produces the single placeholder offer with a `null`
price, marked recommended. -/
theorem c7_amended (pd : NegotiationAssistant.GuidancePriceData)
    (intent : IntentClassifier.ClassifiedIntent) (text : Str) :
    (let sp :=
      if (NegotiationAssistant.analyzeCustomerBehavior text intent).priceAwareness =
          jstr "high" then
        pd.ranges.market
      else pd.ranges.recommended
    (NegotiationAssistant.guideCounterOffers intent (some pd) text).map
        (fun o => (o.level, o.price, o.recommended)) =
      [(jstr "first_offer", some (max (jsRound ((sp : ℚ) * (1 - 5 / 100))) pd.ranges.safe), true),
       (jstr "second_offer", some (max (jsRound ((sp : ℚ) * (1 - 8 / 100))) pd.ranges.safe), false),
       (jstr "final_offer", some (max (jsRound ((sp : ℚ) * (1 - 12 / 100))) pd.ranges.safe), false)]) ∧
    (NegotiationAssistant.guideCounterOffers intent none text).map
        (fun o => (o.price, o.recommended)) = [(none, true)] :=
  ⟨rfl, rfl⟩

/-- Claim C9 counterexample: for the text "Hello" from english to hindi with
no intent hint, no dictionary word applies, yet the word-substitution path
lowercases the text, so the original is not returned unchanged. -/
theorem c9_counterexample :
    TranslationEngine.translate (jstr "Hello") (jstr "english") (jstr "hindi") none ≠
      jstr "Hello" := by
  decide

namespace TranslationEngine

theorem foldl_ite_id {α β : Type} (cond : β → Bool) (f : α → β → α) :
    ∀ (l : List β) (t : α), (∀ p ∈ l, cond p = false) →
      l.foldl (fun t' p => if cond p then f t' p else t') t = t := by
  intro l
  induction l with
  | nil => intro t _; rfl
  | cons x xs ih =>
    intro t h
    simp only [List.foldl_cons, h x (by simp)]
    exact ih t (fun p hp => h p (by simp [hp]))

theorem preserveTone_foldl (orig lang : Str) :
    ∀ (l : List (Str × List Str)) (t : Str),
      (∀ tp ∈ l, ∀ p ∈ tp.2, jsIncludes (orig.map Char.toLower) p = false) →
      l.foldl
        (fun t' tonePats =>
          tonePats.2.foldl
            (fun t'' p =>
              if jsIncludes (orig.map Char.toLower) p then
                addToneMarkers t'' tonePats.1 lang
              else t'')
            t')
        t = t := by
  intro l
  induction l with
  | nil => intro t _; rfl
  | cons tp tps ih =>
    intro t h
    simp only [List.foldl_cons]
    rw [foldl_ite_id (fun p => jsIncludes (orig.map Char.toLower) p)
      (fun t'' _ => addToneMarkers t'' tp.1 lang) tp.2 t (h tp (by simp))]
    exact ih t (fun tp' htp' p hp => h tp' (by simp [htp']) p hp)

theorem preserveTone_id (t orig lang : Str)
    (h : ∀ tp ∈ tonePatterns, ∀ p ∈ tp.2,
      jsIncludes (orig.map Char.toLower) p = false) :
    preserveNegotiationTone t orig lang = t :=
  preserveTone_foldl orig lang tonePatterns t h

end TranslationEngine

/-- Claim C9 as amended: `translate` is the identity when source and target
language tags are equal; and when the normalized language pair has no word
dictionary and the text triggers no tone marker, the original text is
returned unchanged (otherwise the word path lowercases the text and may
prepend a tone marker, as the counterexample shows). -/
theorem c9_amended :
    (∀ (text lang : Str) (intent : Option IntentClassifier.ClassifiedIntent),
      TranslationEngine.translate text lang lang intent = text) ∧
    (∀ (text fromL toL : Str),
      TranslationEngine.commonTranslations.lookup
        (TranslationEngine.normalizeLanguageCode fromL ++ jstr "_to_" ++
          TranslationEngine.normalizeLanguageCode toL) = none →
      (∀ tp ∈ TranslationEngine.tonePatterns, ∀ p ∈ tp.2,
        jsIncludes (text.map Char.toLower) p = false) →
      TranslationEngine.translate text fromL toL none = text) := by
  constructor
  · intro text lang intent
    simp [TranslationEngine.translate]
  · intro text fromL toL hdict htone
    by_cases heq : fromL = toL
    · simp [TranslationEngine.translate, heq]
    · have hw : TranslationEngine.translateWords text
          (TranslationEngine.normalizeLanguageCode fromL)
          (TranslationEngine.normalizeLanguageCode toL) = text := by
        unfold TranslationEngine.translateWords
        rw [hdict]
      have ht : TranslationEngine.translateUsingTemplates text
          (TranslationEngine.normalizeLanguageCode fromL)
          (TranslationEngine.normalizeLanguageCode toL) none = none := rfl
      simp only [TranslationEngine.translate, if_neg heq, ht]
      rw [hw, TranslationEngine.preserveTone_id text text _ htone]
      split <;> rfl

/-- Claim C9 witness: the amended theorem applied at the identical pair
(english, english) and at the dictionary-free pair (hindi, kannada) with a
text that triggers no tone marker. -/
theorem c9_amended_witness :
    TranslationEngine.translate (jstr "hello") (jstr "english") (jstr "english") none =
      jstr "hello" ∧
    TranslationEngine.translate (jstr "zzz") (jstr "hindi") (jstr "kannada") none =
      jstr "zzz" :=
  ⟨c9_amended.1 (jstr "hello") (jstr "english") none,
   c9_amended.2 (jstr "zzz") (jstr "hindi") (jstr "kannada") (by decide) (by decide)⟩

theorem lookup_mem {β : Type} {l : List (Str × β)} {k : Str} {v : β}
    (h : l.lookup k = some v) : (k, v) ∈ l := by
  induction l with
  | nil => simp [List.lookup] at h
  | cons kv t ih =>
    obtain ⟨k', v'⟩ := kv
    simp only [List.lookup] at h
    split at h
    · next heq =>
      cases h
      have hk := eq_of_beq heq
      subst hk
      exact List.mem_cons_self _ _
    · exact List.mem_cons_of_mem _ (ih h)

theorem demo_market_eq (r : ℚ) :
    (PriceDiscoveryEngine.getMarketPrice PriceDiscoveryEngine.demoEngine
      (some (jstr "tomato")) (some (jstr "vegetables")) r).map (fun q => q.marketPrice) =
    some (jsRound ((50 : ℚ) * (1 + (r - 1 / 2) * (1 / 10)))) := rfl

/-- Claim C2 counterexample: two calls of `getMarketPrice` for the same
(product, category) pair with different `Math.random()` draws return quotes
with different market prices (48 versus 53 for draws 0 and 1), so repeated
calls with identical inputs do not yield identical results and the returned
`marketPrice` is not the canonical table price. -/
theorem c2_counterexample :
    PriceDiscoveryEngine.getMarketPrice PriceDiscoveryEngine.demoEngine
      (some (jstr "tomato")) (some (jstr "vegetables")) 0 ≠
    PriceDiscoveryEngine.getMarketPrice PriceDiscoveryEngine.demoEngine
      (some (jstr "tomato")) (some (jstr "vegetables")) 1 := by
  intro hcontra
  have h0 := demo_market_eq 0
  have h1 := demo_market_eq 1
  rw [hcontra, h1] at h0
  have h2 : jsRound ((50 : ℚ) * (1 + ((1 : ℚ) - 1 / 2) * (1 / 10))) =
      jsRound ((50 : ℚ) * (1 + ((0 : ℚ) - 1 / 2) * (1 / 10))) :=
    Option.some.inj h0
  norm_num [jsRound] at h2

theorem jsRound_mono {a b : ℚ} (h : a ≤ b) : jsRound a ≤ jsRound b :=
  Int.floor_mono (by linarith)

/-- Claim C2 as amended: the market variation is bounded and deterministic in
the draw — for a draw `r` in the unit interval and a nonnegative effective
seasonal variation `sv`, the adjusted market price stays between the rounded
`base * (1 - sv/2)` and `base * (1 + sv/2)`; the engine's tables themselves
are never modified (the model is a pure function of them). -/
theorem c2_amended (eng : PriceDiscoveryEngine.PriceEngine)
    (pd : PriceDiscoveryEngine.ProductData) (category : Option Str) (r : ℚ)
    (h0 : 0 ≤ r) (h1 : r ≤ 1) (hm : 0 ≤ pd.marketPrice)
    (hsv : 0 ≤ PriceDiscoveryEngine.effectiveSeasonalVariation eng category) :
    jsRound (pd.marketPrice *
        (1 - PriceDiscoveryEngine.effectiveSeasonalVariation eng category / 2)) ≤
      (PriceDiscoveryEngine.applyMarketVariations eng pd category r).1 ∧
    (PriceDiscoveryEngine.applyMarketVariations eng pd category r).1 ≤
      jsRound (pd.marketPrice *
        (1 + PriceDiscoveryEngine.effectiveSeasonalVariation eng category / 2)) := by
  have hval : (PriceDiscoveryEngine.applyMarketVariations eng pd category r).1 =
      jsRound (pd.marketPrice *
        (1 + (r - 1 / 2) * PriceDiscoveryEngine.effectiveSeasonalVariation eng category)) :=
    rfl
  rw [hval]
  set sv := PriceDiscoveryEngine.effectiveSeasonalVariation eng category with hsvdef
  constructor
  · apply jsRound_mono
    nlinarith [mul_nonneg (mul_nonneg hm hsv) h0]
  · apply jsRound_mono
    nlinarith [mul_nonneg (mul_nonneg hm hsv) (by linarith : (0 : ℚ) ≤ 1 - r)]

/-- Claim C2 witness: the amended bound applied to the modelled tomato entry
with draw one quarter. -/
theorem c2_amended_witness :
    jsRound (PriceDiscoveryEngine.demoTomato.marketPrice *
        (1 - PriceDiscoveryEngine.effectiveSeasonalVariation
          PriceDiscoveryEngine.demoEngine (some (jstr "vegetables")) / 2)) ≤
      (PriceDiscoveryEngine.applyMarketVariations PriceDiscoveryEngine.demoEngine
        PriceDiscoveryEngine.demoTomato (some (jstr "vegetables")) (1 / 4)).1 ∧
    (PriceDiscoveryEngine.applyMarketVariations PriceDiscoveryEngine.demoEngine
        PriceDiscoveryEngine.demoTomato (some (jstr "vegetables")) (1 / 4)).1 ≤
      jsRound (PriceDiscoveryEngine.demoTomato.marketPrice *
        (1 + PriceDiscoveryEngine.effectiveSeasonalVariation
          PriceDiscoveryEngine.demoEngine (some (jstr "vegetables")) / 2)) :=
  c2_amended PriceDiscoveryEngine.demoEngine PriceDiscoveryEngine.demoTomato
    (some (jstr "vegetables")) (1 / 4) (by norm_num) (by norm_num)
    (by rw [show PriceDiscoveryEngine.demoTomato.marketPrice = (50 : ℚ) from rfl]; norm_num)
    (by rw [show PriceDiscoveryEngine.effectiveSeasonalVariation
          PriceDiscoveryEngine.demoEngine (some (jstr "vegetables")) = (1 / 10 : ℚ) from rfl]
        norm_num)

namespace PriceDiscoveryEngine

theorem jsRound_pos {q : ℚ} (h : 1 / 2 ≤ q) : 0 < jsRound q := by
  have h1 : (1 : ℤ) ≤ ⌊q + 1 / 2⌋ := Int.le_floor.mpr (by push_cast; linarith)
  unfold jsRound
  omega

/-- Shorthand for the category-table side of `WellFormedEngine`. -/
theorem getCategoryDefaults_good (eng : PriceEngine) (c : Str) (pd : ProductData)
    (hw2 : ∀ kv ∈ eng.categories,
      (orQ kv.2.averagePrice 50).den = 1 ∧ 1 ≤ orQ kv.2.averagePrice 50 ∧
        0 ≤ orQ kv.2.defaultMargin (15 / 100) ∧
        orQ kv.2.defaultMargin (15 / 100) ≤ 1 / 2 ∧
        0 ≤ orQ kv.2.seasonalVariation (1 / 10) ∧
        orQ kv.2.seasonalVariation (1 / 10) ≤ 1)
    (h : getCategoryDefaults eng c = some pd) :
    1 ≤ pd.minPrice ∧ pd.minPrice ≤ pd.marketPrice ∧ pd.marketPrice ≤ pd.maxPrice := by
  unfold getCategoryDefaults at h
  split at h
  · simp at h
  · next cd hcd =>
    obtain ⟨hden, hb1, hm0, hm2, _, _⟩ := hw2 (c, cd) (lookup_mem hcd)
    cases h
    dsimp only
    set b := orQ cd.averagePrice 50 with hbdef
    set m := orQ cd.defaultMargin (15 / 100) with hmdef
    have hint : ((b.num : ℚ)) = b := (Rat.den_eq_one_iff b).mp hden
    refine ⟨?_, ?_, ?_⟩
    · have hpos : (0 : ℤ) < jsRound (b * (1 - m)) := jsRound_pos (by nlinarith)
      have hone : (1 : ℤ) ≤ jsRound (b * (1 - m)) := hpos
      exact_mod_cast hone
    · have hle : jsRound (b * (1 - m)) ≤ b.num := by
        have hlt : jsRound (b * (1 - m)) < b.num + 1 := by
          unfold jsRound
          refine Int.floor_lt.mpr ?_
          push_cast
          rw [hint]
          nlinarith [mul_nonneg (by linarith : (0 : ℚ) ≤ b) hm0]
        omega
      calc ((jsRound (b * (1 - m)) : ℤ) : ℚ) ≤ (b.num : ℚ) := by exact_mod_cast hle
        _ = b := hint
    · have hge : b.num ≤ jsRound (b * (1 + m)) := by
        unfold jsRound
        refine Int.le_floor.mpr ?_
        rw [hint]
        nlinarith [mul_nonneg (by linarith : (0 : ℚ) ≤ b) hm0]
      calc b = (b.num : ℚ) := hint.symm
        _ ≤ ((jsRound (b * (1 + m)) : ℤ) : ℚ) := by exact_mod_cast hge

theorem fuzzy_good (eng : PriceEngine)
    (hw1 : ∀ kv ∈ eng.priceData,
      1 ≤ kv.2.minPrice ∧ kv.2.minPrice ≤ kv.2.marketPrice ∧
        kv.2.marketPrice ≤ kv.2.maxPrice)
    (np : Option Str) (pd : ProductData)
    (h : findProductByFuzzyMatch eng np = some pd) :
    1 ≤ pd.minPrice ∧ pd.minPrice ≤ pd.marketPrice ∧ pd.marketPrice ≤ pd.maxPrice := by
  unfold findProductByFuzzyMatch at h
  cases np with
  | none => simp at h
  | some s =>
    dsimp only at h
    split at h
    · next d hd =>
      cases h
      exact hw1 _ (lookup_mem hd)
    · split at h
      · next kv hkv =>
        cases h
        exact hw1 kv (List.mem_of_find?_eq_some hkv)
      · rw [Option.map_eq_some'] at h
        obtain ⟨kv, hkv, hpd⟩ := h
        subst hpd
        exact hw1 kv (List.mem_of_find?_eq_some hkv)

theorem effectiveSV_bounds (eng : PriceEngine) (category : Option Str)
    (hw2 : ∀ kv ∈ eng.categories,
      (orQ kv.2.averagePrice 50).den = 1 ∧ 1 ≤ orQ kv.2.averagePrice 50 ∧
        0 ≤ orQ kv.2.defaultMargin (15 / 100) ∧
        orQ kv.2.defaultMargin (15 / 100) ≤ 1 / 2 ∧
        0 ≤ orQ kv.2.seasonalVariation (1 / 10) ∧
        orQ kv.2.seasonalVariation (1 / 10) ≤ 1) :
    0 ≤ effectiveSeasonalVariation eng category ∧
      effectiveSeasonalVariation eng category ≤ 1 := by
  match category with
  | none =>
    have he : effectiveSeasonalVariation eng none = 1 / 10 := rfl
    rw [he]
    norm_num
  | some c =>
    have he : effectiveSeasonalVariation eng (some c) =
        orQ ((eng.categories.lookup c).bind fun cd => cd.seasonalVariation) (1 / 10) := rfl
    rw [he]
    match hlk : eng.categories.lookup c with
    | none =>
      show (0 : ℚ) ≤ orQ none (1 / 10) ∧ orQ none (1 / 10) ≤ 1
      constructor <;> norm_num [orQ]
    | some cd =>
      show (0 : ℚ) ≤ orQ cd.seasonalVariation (1 / 10) ∧
        orQ cd.seasonalVariation (1 / 10) ≤ 1
      have hb := hw2 (c, cd) (lookup_mem hlk)
      exact ⟨hb.2.2.2.2.1, hb.2.2.2.2.2⟩

theorem adjusted_good (eng : PriceEngine) (pd : ProductData) (category : Option Str)
    (r : ℚ)
    (hgood : 1 ≤ pd.minPrice ∧ pd.minPrice ≤ pd.marketPrice ∧
      pd.marketPrice ≤ pd.maxPrice)
    (h0 : 0 ≤ r) (h1 : r ≤ 1)
    (hsv : 0 ≤ effectiveSeasonalVariation eng category ∧
      effectiveSeasonalVariation eng category ≤ 1) :
    0 < (applyMarketVariations eng pd category r).2.1 ∧
      (applyMarketVariations eng pd category r).2.1 ≤
        (applyMarketVariations eng pd category r).1 ∧
      (applyMarketVariations eng pd category r).1 ≤
        (applyMarketVariations eng pd category r).2.2 := by
  have e1 : (applyMarketVariations eng pd category r).1 =
      jsRound (pd.marketPrice *
        (1 + (r - 1 / 2) * effectiveSeasonalVariation eng category)) := rfl
  have e2 : (applyMarketVariations eng pd category r).2.1 =
      jsRound (pd.minPrice *
        (1 + (r - 1 / 2) * effectiveSeasonalVariation eng category)) := rfl
  have e3 : (applyMarketVariations eng pd category r).2.2 =
      jsRound (pd.maxPrice *
        (1 + (r - 1 / 2) * effectiveSeasonalVariation eng category)) := rfl
  rw [e1, e2, e3]
  set sv := effectiveSeasonalVariation eng category with hsvdef
  have hvlo : -(1 / 2 : ℚ) ≤ (r - 1 / 2) * sv := by
    nlinarith [mul_nonneg h0 hsv.1]
  have hvhi : (r - 1 / 2) * sv ≤ 1 / 2 := by
    nlinarith [mul_le_mul_of_nonneg_right h1 hsv.1]
  refine ⟨?_, ?_, ?_⟩
  · refine jsRound_pos ?_
    nlinarith [mul_nonneg (by linarith : (0 : ℚ) ≤ pd.minPrice - 1)
      (by linarith : (0 : ℚ) ≤ 1 + (r - 1 / 2) * sv)]
  · exact jsRound_mono
      (mul_le_mul_of_nonneg_right hgood.2.1 (by linarith))
  · exact jsRound_mono
      (mul_le_mul_of_nonneg_right hgood.2.2 (by linarith))

end PriceDiscoveryEngine

/-- The own-table fragment of the price invariant: for every well-formed
dataset, every draw of the market variation in the unit interval and every
(product, category) pair for which the own-property-lookup model of
`getMarketPrice` returns a quote, the quote satisfies
`0 < minPrice ≤ marketPrice ≤ maxPrice` (the prices are integers by type,
being `Math.round` results). The prototype-chain refinement
`getMarketPriceProto` shows this invariant fails in the source itself. -/
theorem getMarketPrice_invariant_ownTable (eng : PriceDiscoveryEngine.PriceEngine)
    (product category : Option Str) (r : ℚ) (q : PriceDiscoveryEngine.PriceQuote)
    (hw : PriceDiscoveryEngine.WellFormedEngine eng) (h0 : 0 ≤ r) (h1 : r ≤ 1)
    (hq : PriceDiscoveryEngine.getMarketPrice eng product category r = some q) :
    0 < q.minPrice ∧ q.minPrice ≤ q.marketPrice ∧ q.marketPrice ≤ q.maxPrice := by
  obtain ⟨hw1, hw2⟩ := hw
  have hsv := PriceDiscoveryEngine.effectiveSV_bounds eng category hw2
  simp only [PriceDiscoveryEngine.getMarketPrice] at hq
  split at hq
  · simp at hq
  · next pd hpd =>
    have hrec := Option.some.inj hq
    have hgood : 1 ≤ pd.minPrice ∧ pd.minPrice ≤ pd.marketPrice ∧
        pd.marketPrice ≤ pd.maxPrice := by
      split at hpd
      · next d hd =>
        cases hpd
        split at hd
        · next d' hd' =>
          cases hd
          rw [Option.bind_eq_some] at hd'
          obtain ⟨s, _, hlk⟩ := hd'
          exact hw1 _ (lookup_mem hlk)
        · exact PriceDiscoveryEngine.fuzzy_good eng hw1 _ pd hd
      · cases category with
        | none => simp at hpd
        | some c =>
          dsimp only at hpd
          split at hpd
          · exact PriceDiscoveryEngine.getCategoryDefaults_good eng c pd hw2 hpd
          · simp at hpd
    have hadj := PriceDiscoveryEngine.adjusted_good eng pd category r hgood h0 h1 hsv
    rw [← hrec]
    exact ⟨hadj.1, hadj.2.1, hadj.2.2⟩

theorem demoEngine_wf :
    PriceDiscoveryEngine.WellFormedEngine PriceDiscoveryEngine.demoEngine := by
  constructor
  · intro kv hkv
    simp only [PriceDiscoveryEngine.demoEngine, List.mem_singleton] at hkv
    subst hkv
    refine ⟨?_, ?_, ?_⟩ <;> norm_num [PriceDiscoveryEngine.demoTomato]
  · intro kv hkv
    simp only [PriceDiscoveryEngine.demoEngine, List.mem_singleton] at hkv
    subst hkv
    refine ⟨?_, ?_, ?_, ?_, ?_, ?_⟩ <;>
      norm_num [PriceDiscoveryEngine.demoVegetables, orQ, Rat.den_ofNat]

/-- The own-table invariant evaluated on the modelled dataset at the product
"tomato", category "vegetables" and draw one quarter. -/
theorem getMarketPrice_invariant_ownTable_demo :
    ((PriceDiscoveryEngine.getMarketPrice PriceDiscoveryEngine.demoEngine
        (some (jstr "tomato")) (some (jstr "vegetables")) (1 / 4)).map
      (fun q => decide (0 < q.minPrice ∧ q.minPrice ≤ q.marketPrice ∧
        q.marketPrice ≤ q.maxPrice))).getD false = true := by
  rcases hq : PriceDiscoveryEngine.getMarketPrice PriceDiscoveryEngine.demoEngine
      (some (jstr "tomato")) (some (jstr "vegetables")) (1 / 4) with _ | q
  · have h := demo_market_eq (1 / 4)
    rw [hq] at h
    simp at h
  · simp only [Option.map_some', Option.getD_some]
    rw [decide_eq_true_eq]
    exact getMarketPrice_invariant_ownTable PriceDiscoveryEngine.demoEngine
      (some (jstr "tomato")) (some (jstr "vegetables")) (1 / 4) q
      demoEngine_wf (by norm_num) (by norm_num) hq

/-- Claim C4: the price invariant fails in the source. The direct lookup
`this.priceData[normalizedProduct]` (source line 2614) has no own-property
guard, so under JavaScript property semantics the product "constructors"
(normalized "constructor") resolves to the truthy inherited
`Object.prototype.constructor` on every dataset without an own "constructor"
entry; the returned quote is then non-null but its `marketPrice`, `minPrice`
and `maxPrice` are all `Math.round(undefined * x) = NaN`, not positive
integers satisfying `minPrice ≤ marketPrice ≤ maxPrice`. -/
theorem c4_proto_nan_quote (eng : PriceDiscoveryEngine.PriceEngine)
    (category : Option Str) (r : ℚ)
    (h : eng.priceData.lookup (jstr "constructor") = none) :
    ∃ q : PriceDiscoveryEngine.PriceQuoteN,
      PriceDiscoveryEngine.getMarketPriceProto eng (some (jstr "constructors"))
          category r = some q ∧
      q.marketPrice = none ∧ q.minPrice = none ∧ q.maxPrice = none := by
  have hn : PriceDiscoveryEngine.normalizeProductName (some (jstr "constructors")) =
      some (jstr "constructor") := by decide
  have hd : PriceDiscoveryEngine.objectGet eng.priceData (jstr "constructor") =
      some PriceDiscoveryEngine.inheritedFields := by
    unfold PriceDiscoveryEngine.objectGet
    rw [h]
    rw [if_pos (by decide)]
  simp only [PriceDiscoveryEngine.getMarketPriceProto, hn, hd]
  exact ⟨_, rfl, rfl, rfl, rfl⟩

/-- Witness for the C4 code-bug theorem: the modelled well-formed demo
dataset has no own "constructor" product, and the prototype-semantics quote
for the product "constructors" at draw one quarter is non-null with `NaN`
prices. -/
theorem c4_proto_nan_quote_witness :
    PriceDiscoveryEngine.demoEngine.priceData.lookup (jstr "constructor") = none ∧
    ∃ q : PriceDiscoveryEngine.PriceQuoteN,
      PriceDiscoveryEngine.getMarketPriceProto PriceDiscoveryEngine.demoEngine
          (some (jstr "constructors")) (some (jstr "vegetables")) (1 / 4) = some q ∧
      q.marketPrice = none ∧ q.minPrice = none ∧ q.maxPrice = none :=
  ⟨by decide, c4_proto_nan_quote PriceDiscoveryEngine.demoEngine
    (some (jstr "vegetables")) (1 / 4) (by decide)⟩

theorem hasTok_cons (c : Char) (s : Str) :
    hasTok (c :: s) =
      ((c == '{' && s.contains '}' && !(s.headD ' ' == '}')) || hasTok s) := rfl

theorem contains_eq_false {s : Str} {x : Char} (h : x ∉ s) : s.contains x = false := by
  rw [← Bool.not_eq_true]
  intro hc
  exact h (List.elem_iff.mp hc)

theorem hasTok_false_of_no_close : ∀ (s : Str), '}' ∉ s → hasTok s = false := by
  intro s
  induction s with
  | nil => intro _; rfl
  | cons c rest ih =>
    intro h
    rw [hasTok_cons, ih (fun hm => h (List.mem_cons_of_mem _ hm)),
      contains_eq_false (fun hm => h (List.mem_cons_of_mem _ hm))]
    simp

theorem hasTok_suffix {t s : Str} (h : t <:+ s) (ht : hasTok t = true) :
    hasTok s = true := by
  induction s with
  | nil =>
    rw [List.suffix_nil.mp h] at ht
    exact absurd ht (by simp [hasTok])
  | cons c s' ih =>
    rcases List.suffix_cons_iff.mp h with h1 | h1
    · rw [← h1]; exact ht
    · rw [hasTok_cons, ih h1]
      simp

theorem hasTok_prefix : ∀ (t s : Str), t <+: s → hasTok t = true → hasTok s = true := by
  intro t
  induction t with
  | nil => intro s _ ht; exact absurd ht (by simp [hasTok])
  | cons c t' ih =>
    intro s hpre ht
    cases s with
    | nil => exact absurd (List.prefix_nil.mp hpre) (by simp)
    | cons b s' =>
      obtain ⟨hcb, hpre'⟩ := List.cons_prefix_cons.mp hpre
      subst hcb
      rw [hasTok_cons] at ht ⊢
      rcases Bool.or_eq_true_iff.mp ht with hhead | htail
      · obtain ⟨h12, h3⟩ := Bool.and_eq_true_iff.mp hhead
        obtain ⟨h1, h2⟩ := Bool.and_eq_true_iff.mp h12
        have hmem : '}' ∈ t' := List.elem_iff.mp h2
        have hmem' : '}' ∈ s' := hpre'.subset hmem
        have hne : t' ≠ [] := by rintro rfl; simp at hmem
        obtain ⟨a, t'', rfl⟩ := List.exists_cons_of_ne_nil hne
        cases s' with
        | nil => simp at hmem'
        | cons b' s'' =>
          obtain ⟨hab, _⟩ := List.cons_prefix_cons.mp hpre'
          subst hab
          apply Bool.or_eq_true_iff.mpr
          left
          simp only [List.headD_cons] at h3 ⊢
          rw [Bool.and_eq_true, Bool.and_eq_true]
          exact ⟨⟨h1, List.elem_iff.mpr hmem'⟩, h3⟩
      · rw [ih s' hpre' htail]
        simp

theorem hasTok_infix {t s : Str} (h : t <:+: s) (ht : hasTok t = true) :
    hasTok s = true := by
  obtain ⟨u, hpre, hsuf⟩ := List.infix_iff_prefix_suffix.mp h
  exact hasTok_suffix hsuf ( hasTok_prefix _ _ hpre ht)

theorem hasTok_append_no_close : ∀ (p q : Str), '}' ∉ q →
    hasTok (p ++ q) = true → hasTok p = true := by
  intro p
  induction p with
  | nil =>
    intro q hq h
    rw [List.nil_append] at h
    exact absurd h (by rw [hasTok_false_of_no_close q hq]; simp)
  | cons c p' ih =>
    intro q hq h
    rw [List.cons_append, hasTok_cons] at h
    rw [hasTok_cons]
    rcases Bool.or_eq_true_iff.mp h with hhead | htail
    · obtain ⟨h12, h3⟩ := Bool.and_eq_true_iff.mp hhead
      obtain ⟨h1, h2⟩ := Bool.and_eq_true_iff.mp h12
      have hmem : '}' ∈ p' ++ q := List.elem_iff.mp h2
      have hmemp : '}' ∈ p' := by
        rcases List.mem_append.mp hmem with hm | hm
        · exact hm
        · exact absurd hm hq
      have hne : p' ≠ [] := by rintro rfl; simp at hmemp
      obtain ⟨a, p'', rfl⟩ := List.exists_cons_of_ne_nil hne
      apply Bool.or_eq_true_iff.mpr
      left
      simp only [List.cons_append, List.headD_cons] at h3 ⊢
      rw [Bool.and_eq_true, Bool.and_eq_true]
      exact ⟨⟨h1, List.elem_iff.mpr hmemp⟩, h3⟩
    · rw [ih q hq htail]
      simp

theorem stripPhAux_skip : ∀ (n : ℕ) (s : Str), stripPhAux n s = stripPhAux 0 (s.drop n) := by
  intro n
  induction n with
  | zero => intro s; rfl
  | succ k ih =>
    intro s
    cases s with
    | nil => rfl
    | cons c rest =>
      show stripPhAux k rest = stripPhAux 0 ((c :: rest).drop (k + 1))
      rw [List.drop_succ_cons]
      exact ih rest

theorem stripPh_cons (c : Char) (rest : Str) :
    stripPh (c :: rest) =
      if c = '{' ∧ (rest.takeWhile (fun x => x ≠ '}')) ≠ [] ∧
          rest.drop (rest.takeWhile (fun x => x ≠ '}')).length ≠ [] then
        stripPh (rest.drop ((rest.takeWhile (fun x => x ≠ '}')).length + 1))
      else c :: stripPh rest := by
  rw [show stripPh (c :: rest) =
      (if c = '{' ∧ (rest.takeWhile (fun x => x ≠ '}')) ≠ [] ∧
          rest.drop (rest.takeWhile (fun x => x ≠ '}')).length ≠ [] then
        stripPhAux ((rest.takeWhile (fun x => x ≠ '}')).length + 1) rest
      else c :: stripPhAux 0 rest) from rfl,
    stripPhAux_skip ((rest.takeWhile (fun x => x ≠ '}')).length + 1) rest]
  rfl

theorem mem_stripPh : ∀ (fuel : ℕ) (s : Str), s.length ≤ fuel →
    ∀ x, x ∈ stripPh s → x ∈ s := by
  intro fuel
  induction fuel with
  | zero =>
    intro s hs x hx
    rw [List.length_eq_zero.mp (Nat.le_zero.mp hs)] at hx
    simp [stripPh, stripPhAux] at hx
  | succ k ih =>
    intro s hs x hx
    cases s with
    | nil => simp [stripPh, stripPhAux] at hx
    | cons c rest =>
      simp only [List.length_cons, Nat.succ_le_succ_iff] at hs
      rw [stripPh_cons] at hx
      split at hx
      · have hx' := ih _ (by simp only [List.length_drop]; omega) x hx
        exact List.mem_cons_of_mem _ (List.mem_of_mem_drop hx')
      · rcases List.mem_cons.mp hx with h | h
        · exact h ▸ List.mem_cons_self _ _
        · exact List.mem_cons_of_mem _ (ih rest hs x h)

theorem stripPh_noTok_fuel : ∀ (fuel : ℕ) (s : Str), s.length ≤ fuel →
    hasTok (stripPh s) = false := by
  intro fuel
  induction fuel with
  | zero =>
    intro s hs
    rw [List.length_eq_zero.mp (Nat.le_zero.mp hs)]
    rfl
  | succ k ih =>
    intro s hs
    cases s with
    | nil => rfl
    | cons c rest =>
      simp only [List.length_cons, Nat.succ_le_succ_iff] at hs
      rw [stripPh_cons]
      split
      · exact ih _ (by simp only [List.length_drop]; omega)
      · next hcond =>
        rw [hasTok_cons]
        rw [ih rest hs, Bool.or_false]
        by_cases hc : c = '{'
        · rcases not_and_or.mp (fun hAB => hcond ⟨hc, hAB⟩) with hA | hB
          · have hA' : rest.takeWhile (fun x => x ≠ '}') = [] := not_not.mp hA
            cases rest with
            | nil => simp [stripPh, stripPhAux]
            | cons r0 rest' =>
              have hr0 : r0 = '}' := by
                by_contra hne
                simp [List.takeWhile_cons, hne] at hA'
              subst hr0
              have hsp : stripPh ('}' :: rest') = '}' :: stripPh rest' := by
                rw [stripPh_cons,
                  if_neg (fun h => absurd h.1 (by decide))]
              rw [hsp]
              simp
          · have hB' : rest.drop (rest.takeWhile (fun x => x ≠ '}')).length = [] :=
              not_not.mp hB
            have hdw : rest.drop (rest.takeWhile (fun x => x ≠ '}')).length =
                rest.dropWhile (fun x => x ≠ '}') := by
              have h2 := List.drop_left (rest.takeWhile (fun x => x ≠ '}'))
                (rest.dropWhile (fun x => x ≠ '}'))
              rw [List.takeWhile_append_dropWhile] at h2
              exact h2
            have hBd : rest.dropWhile (fun x => x ≠ '}') = [] := by
              rw [← hdw]; exact hB'
            have hall : '}' ∉ rest := by
              intro hm
              have hrt : rest = rest.takeWhile (fun x => x ≠ '}') := by
                conv_lhs => rw [← List.takeWhile_append_dropWhile
                  (fun x => decide (x ≠ '}')) rest]
                rw [hBd, List.append_nil]
              rw [hrt] at hm
              have := List.mem_takeWhile_imp hm
              simp at this
            have hns : '}' ∉ stripPh rest :=
              fun hm => hall (mem_stripPh k rest hs '}' hm)
            simp [contains_eq_false hns]
            intro _ hm
            exact absurd hm hns
        · simp [beq_eq_false_iff_ne.mpr hc]

theorem stripPh_noTok (s : Str) : hasTok (stripPh s) = false :=
  stripPh_noTok_fuel s.length s le_rfl

theorem mem_collapseWsAux : ∀ (s : Str) (b : Bool) (x : Char),
    x ∈ collapseWsAux b s → x = ' ' ∨ x ∈ s := by
  intro s
  induction s with
  | nil => intro b x hx; simp [collapseWsAux] at hx
  | cons c rest ih =>
    intro b x hx
    simp only [collapseWsAux] at hx
    by_cases hws : isWsJS c
    · rw [if_pos hws] at hx
      split at hx
      · rcases ih true x hx with h | h
        · exact Or.inl h
        · exact Or.inr (List.mem_cons_of_mem _ h)
      · rcases List.mem_cons.mp hx with h | h
        · exact Or.inl h
        · rcases ih true x h with h' | h'
          · exact Or.inl h'
          · exact Or.inr (List.mem_cons_of_mem _ h')
    · rw [if_neg hws] at hx
      rcases List.mem_cons.mp hx with h | h
      · exact Or.inr (h ▸ List.mem_cons_self _ _)
      · rcases ih false x h with h' | h'
        · exact Or.inl h'
        · exact Or.inr (List.mem_cons_of_mem _ h')

theorem collapse_tok : ∀ (s : Str) (b : Bool),
    hasTok (collapseWsAux b s) = true → hasTok s = true := by
  intro s
  induction s with
  | nil => intro b h; simp [collapseWsAux, hasTok] at h
  | cons c rest ih =>
    intro b h
    rw [hasTok_cons]
    simp only [collapseWsAux] at h
    by_cases hws : isWsJS c
    · rw [if_pos hws] at h
      apply Bool.or_eq_true_iff.mpr
      right
      split at h
      · exact ih true h
      · rw [hasTok_cons] at h
        rcases Bool.or_eq_true_iff.mp h with hhead | htail
        · obtain ⟨h12, _⟩ := Bool.and_eq_true_iff.mp hhead
          obtain ⟨h1, _⟩ := Bool.and_eq_true_iff.mp h12
          exact absurd h1 (by decide)
        · exact ih true htail
    · rw [if_neg hws] at h
      rw [hasTok_cons] at h
      rcases Bool.or_eq_true_iff.mp h with hhead | htail
      · obtain ⟨h12, h3⟩ := Bool.and_eq_true_iff.mp hhead
        obtain ⟨h1, h2⟩ := Bool.and_eq_true_iff.mp h12
        have hmemc : '}' ∈ collapseWsAux false rest := List.elem_iff.mp h2
        have hmem : '}' ∈ rest :=
          (mem_collapseWsAux rest false '}' hmemc).resolve_left (by decide)
        apply Bool.or_eq_true_iff.mpr
        left
        rw [Bool.and_eq_true, Bool.and_eq_true]
        refine ⟨⟨h1, List.elem_iff.mpr hmem⟩, ?_⟩
        cases rest with
        | nil => simp at hmem
        | cons r0 rest' =>
          simp only [List.headD_cons]
          by_contra hr0
          have hr0' : r0 = '}' := by
            simpa using hr0
          subst hr0'
          have hws0 : isWsJS '}' = false := by decide
          have : collapseWsAux false ('}' :: rest') = '}' :: collapseWsAux false rest' := by
            simp only [collapseWsAux, hws0]
            rw [if_neg (by decide)]
          rw [this] at h3
          simp at h3
      · apply Bool.or_eq_true_iff.mpr
        right
        exact ih false htail

theorem collapseWs_tok (s : Str) (h : hasTok (collapseWs s) = true) :
    hasTok s = true := collapse_tok s false h

theorem jsTrim_infix (s : Str) : jsTrim s <:+: s := by
  apply List.infix_iff_prefix_suffix.mpr
  refine ⟨s.dropWhile isWsJS, ?_, List.dropWhile_suffix _⟩
  show ((s.dropWhile isWsJS).reverse.dropWhile isWsJS).reverse <+: s.dropWhile isWsJS
  conv_rhs => rw [← List.reverse_reverse (s.dropWhile isWsJS)]
  exact List.reverse_prefix.mpr (List.dropWhile_suffix _)

theorem jsTrim_length_le (s : Str) : (jsTrim s).length ≤ s.length :=
  ( jsTrim_infix s).length_le

theorem splitSepAux_ne_nil (sep : Str) : ∀ (s : Str) (n : ℕ) (acc : Str),
    splitSepAux sep n acc s ≠ [] := by
  intro s
  induction s with
  | nil => intro n acc; cases n <;> simp [splitSepAux]
  | cons c rest ih =>
    intro n acc
    cases n with
    | succ m => exact ih m acc
    | zero =>
      show (if sep ≠ [] ∧ sep.isPrefixOf (c :: rest) then
          acc.reverse :: splitSepAux sep (sep.length - 1) [] rest
        else splitSepAux sep 0 (c :: acc) rest) ≠ []
      split
      · simp
      · exact ih 0 (c :: acc)

theorem joinSep_cons (sep x : Str) (l : List Str) (h : l ≠ []) :
    joinSep sep (x :: l) = x ++ sep ++ joinSep sep l := by
  obtain ⟨y, rest, rfl⟩ := List.exists_cons_of_ne_nil h
  rfl

theorem joinSep_splitSepAux (sep : Str) (hsep : sep ≠ []) :
    ∀ (s : Str) (n : ℕ) (acc : Str),
      joinSep sep (splitSepAux sep n acc s) = acc.reverse ++ s.drop n := by
  intro s
  induction s with
  | nil =>
    intro n acc
    cases n <;> simp [splitSepAux, joinSep]
  | cons c rest ih =>
    intro n acc
    cases n with
    | succ m =>
      show joinSep sep (splitSepAux sep m acc rest) = acc.reverse ++ (c :: rest).drop (m + 1)
      rw [List.drop_succ_cons]
      exact ih m acc
    | zero =>
      show joinSep sep (if sep ≠ [] ∧ sep.isPrefixOf (c :: rest) then
          acc.reverse :: splitSepAux sep (sep.length - 1) [] rest
        else splitSepAux sep 0 (c :: acc) rest) = acc.reverse ++ (c :: rest)
      split
      · next hpre =>
        rw [joinSep_cons sep acc.reverse _ (splitSepAux_ne_nil sep rest _ _), ih]
        obtain ⟨t, ht⟩ := List.isPrefixOf_iff_prefix.mp hpre.2
        obtain ⟨c0, sep', rfl⟩ := List.exists_cons_of_ne_nil hsep
        have hc0 : c0 = c ∧ sep' ++ t = rest := by
          rw [List.cons_append] at ht
          exact ⟨List.head_eq_of_cons_eq ht, List.tail_eq_of_cons_eq ht⟩
        obtain ⟨rfl, hrest⟩ := hc0
        have hlen : (c0 :: sep').length - 1 = sep'.length := by simp
        rw [hlen, ← hrest, List.drop_left]
        simp
      · rw [ih]
        simp

theorem joinSep_splitSep (sep : Str) (hsep : sep ≠ []) (s : Str) :
    joinSep sep (splitSep sep s) = s := by
  rw [splitSep, joinSep_splitSepAux sep hsep s 0 []]
  rfl

theorem accum_le : ∀ (ss : List Str) (acc : Str),
    acc.length ≤ ResponseGenerator.maxDisplayLen →
    (ResponseGenerator.accumSentences ss acc).length ≤ ResponseGenerator.maxDisplayLen := by
  intro ss
  induction ss with
  | nil => intro acc h; exact h
  | cons s rest ih =>
    intro acc h
    show (if (acc ++ s ++ jstr ". ").length ≤ ResponseGenerator.maxDisplayLen then
        ResponseGenerator.accumSentences rest (acc ++ s ++ jstr ". ")
      else acc).length ≤ ResponseGenerator.maxDisplayLen
    split
    · next hfit => exact ih _ hfit
    · exact h

theorem accumSentences_spec : ∀ (ss : List Str) (acc : Str),
    ∃ us vs, ss = us ++ vs ∧
      ResponseGenerator.accumSentences ss acc =
        acc ++ (us.map (fun s => s ++ jstr ". ")).flatten := by
  intro ss
  induction ss with
  | nil => intro acc; exact ⟨[], [], rfl, by simp [ResponseGenerator.accumSentences]⟩
  | cons s rest ih =>
    intro acc
    show ∃ us vs, s :: rest = us ++ vs ∧
      (if (acc ++ s ++ jstr ". ").length ≤ ResponseGenerator.maxDisplayLen then
        ResponseGenerator.accumSentences rest (acc ++ s ++ jstr ". ")
      else acc) = acc ++ (us.map (fun s => s ++ jstr ". ")).flatten
    split
    · obtain ⟨us, vs, hsplit, heq⟩ := ih (acc ++ s ++ jstr ". ")
      refine ⟨s :: us, vs, by rw [hsplit, List.cons_append], ?_⟩
      rw [heq]
      simp [List.append_assoc]
    · exact ⟨[], s :: rest, rfl, by simp⟩

theorem glue_prefix (sep : Str) : ∀ (us vs : List Str), vs ≠ [] →
    (us.map (fun s => s ++ sep)).flatten <+: joinSep sep (us ++ vs) := by
  intro us
  induction us with
  | nil => intro vs _; simp
  | cons x us' ih =>
    intro vs hvs
    rw [List.cons_append,
      joinSep_cons sep x (us' ++ vs) (fun hn => hvs (List.append_eq_nil.mp hn).2),
      List.map_cons, List.flatten_cons]
    exact (List.prefix_append_right_inj (x ++ sep)).mpr (ih vs hvs)

theorem glue_all (sep : Str) : ∀ (us : List Str), us ≠ [] →
    (us.map (fun s => s ++ sep)).flatten = joinSep sep us ++ sep := by
  intro us
  induction us with
  | nil => intro h; exact absurd rfl h
  | cons x us' ih =>
    intro _
    cases us' with
    | nil => simp [joinSep]
    | cons y r =>
      rw [List.map_cons, List.flatten_cons, ih (by simp),
        joinSep_cons sep x (y :: r) (by simp)]
      simp [List.append_assoc]

theorem formatForDisplay_text (text : Str) :
    (ResponseGenerator.formatForDisplay text).text =
      if text.length > ResponseGenerator.maxDisplayLen then
        (if jsTrim (ResponseGenerator.accumSentences (splitSep (jstr ". ") text) []) ≠ [] then
          jsTrim (ResponseGenerator.accumSentences (splitSep (jstr ". ") text) [])
        else text.take (ResponseGenerator.maxDisplayLen - 3) ++ jstr "...")
      else text := rfl

theorem formatForDisplay_length (text : Str) :
    (ResponseGenerator.formatForDisplay text).text.length ≤
      ResponseGenerator.maxDisplayLen := by
  rw [formatForDisplay_text]
  split
  · split
    · exact le_trans (jsTrim_length_le _) (accum_le _ [] (by simp))
    · rw [List.length_append]
      have h1 : (text.take (ResponseGenerator.maxDisplayLen - 3)).length ≤
          ResponseGenerator.maxDisplayLen - 3 := by
        rw [List.length_take]; exact Nat.min_le_left _ _
      have h2 : (jstr "...").length = 3 := rfl
      have h3 : ResponseGenerator.maxDisplayLen = 300 := rfl
      rw [h2]
      omega
  · next hle => exact Nat.le_of_not_lt hle

theorem formatForDisplay_tok (text : Str) (h : hasTok text = false) :
    hasTok (ResponseGenerator.formatForDisplay text).text = false := by
  rw [formatForDisplay_text]
  by_contra hcon
  rw [Bool.not_eq_false] at hcon
  have htrue : hasTok text = true := by
    split at hcon
    · split at hcon
      · have hA := hasTok_infix ( jsTrim_infix _) hcon
        obtain ⟨us, vs, hsplit, heq⟩ :=
          accumSentences_spec (splitSep (jstr ". ") text) []
        rw [heq, List.nil_append] at hA
        by_cases hvs : vs = []
        · subst hvs
          rw [List.append_nil] at hsplit
          by_cases hus : us = []
          · rw [hus] at hA; simp [hasTok] at hA
          · rw [glue_all (jstr ". ") us hus, ← hsplit,
              joinSep_splitSep (jstr ". ") (by decide) text] at hA
            exact hasTok_append_no_close text (jstr ". ") (by decide) hA
        · have hpre := glue_prefix (jstr ". ") us vs hvs
          rw [← hsplit, joinSep_splitSep (jstr ". ") (by decide) text] at hpre
          exact hasTok_prefix _ _ hpre hA
      · have hp := hasTok_append_no_close _ (jstr "...") (by decide) hcon
        exact hasTok_prefix _ _ (List.take_prefix _ _) hp
    · exact hcon
  rw [h] at htrue
  exact Bool.noConfusion htrue

theorem fillTemplate_noTok (tpl : Str) (vars : List (Str × Str)) :
    hasTok (ResponseGenerator.fillTemplate tpl vars) = false := by
  rw [show ResponseGenerator.fillTemplate tpl vars =
      jsTrim (collapseWs (stripPh (vars.foldl
        (fun f kv => jsReplaceAll ('{' :: kv.1 ++ ['}']) kv.2 f) tpl))) from rfl]
  by_contra hcon
  rw [Bool.not_eq_false] at hcon
  have h1 := hasTok_infix ( jsTrim_infix _) hcon
  have h2 := collapseWs_tok _ h1
  rw [stripPh_noTok] at h2
  exact Bool.noConfusion h2

/-- C8: every formatted response text has length at most the configured display
cap of 300 characters (truncating at a sentence boundary when possible,
otherwise hard-truncating with an ellipsis), formatting never introduces an
unfilled `\x7bname\x7d` placeholder token into a token-free text, and every
filled template is free of unfilled placeholder tokens. -/
theorem c8_response_bounded (text tpl : Str) (vars : List (Str × Str)) :
    (ResponseGenerator.formatForDisplay text).text.length ≤
      ResponseGenerator.maxDisplayLen ∧
    (hasTok text = false →
      hasTok (ResponseGenerator.formatForDisplay text).text = false) ∧
    hasTok (ResponseGenerator.fillTemplate tpl vars) = false :=
  ⟨formatForDisplay_length text, fun h => formatForDisplay_tok text h,
    fillTemplate_noTok tpl vars⟩

/-- Witness for C8 at a concrete response text and template. -/
theorem c8_response_bounded_witness :
    hasTok (jstr "Good price for fresh tomatoes") = false ∧
    (ResponseGenerator.formatForDisplay
        (jstr "Good price for fresh tomatoes")).text.length ≤
      ResponseGenerator.maxDisplayLen ∧
    hasTok (ResponseGenerator.formatForDisplay
        (jstr "Good price for fresh tomatoes")).text = false ∧
    hasTok (ResponseGenerator.fillTemplate (jstr "Try {price} rupees for {product}")
      [(jstr "price", jstr "45"), (jstr "product", jstr "tomato")]) = false := by
  have h := c8_response_bounded (jstr "Good price for fresh tomatoes")
    (jstr "Try {price} rupees for {product}")
    [(jstr "price", jstr "45"), (jstr "product", jstr "tomato")]
  exact ⟨by decide, h.1, h.2.1 (by decide), h.2.2⟩
